import Mathlib

/-!
Verification of the credential hashing/verification module of the
`routes_visit` repository (`make_admin_hash.py`).

The module's own code is parsing, dispatch and encoding glue around two
library primitives: `hashlib.pbkdf2_hmac("sha256", ...)` and
`hmac.compare_digest`.  We embed the module shallowly:

* byte strings are `List Nat` with every element `< 256`;
* `hashlib.pbkdf2_hmac("sha256", password, salt, n)` (with the default
  `dklen = None`, i.e. a 32-byte key) is given a concrete executable
  model `pbkdf2HmacSha256`, a direct transcription of FIPS 180-4
  SHA-256, RFC 2104 HMAC and RFC 2898 PBKDF2, validated against the
  published test vectors; where a theorem only depends on the call
  structure we quantify over an arbitrary key-derivation function
  (`Prf`) instead;
* Python string/bytes library behaviour used by the module
  (`str.strip`, `str.split`, `int`, `base64.b64decode`,
  `base64.urlsafe_b64decode`, `base64.b64encode`,
  `base64.urlsafe_b64encode`, `hmac.compare_digest`) is embedded
  faithfully, including `binascii.a2b_base64`'s non-strict decoder
  (invalid characters discarded, padding state machine);
* Python exceptions are an `Except Unit` monad; the module's
  `try/except` is the surrounding `match`.
-/

/-! ## Bytes and 32-bit words -/

abbrev Bytes := List Nat

def M32 : Nat := 4294967296

def add32 (a b : Nat) : Nat := (a + b) % M32

/- The SHA-256 Σ/σ/Ch/Maj functions.  A right-rotation of the 32-bit word
`x` by `n` is read off the doubled word `x * (2^32 + 1)` (two adjacent
copies of `x`): bits `n .. n+31` of the doubled word are the rotation, so
`rotr32 x n = ((x * 4294967297) >>> n) % 2^32`.  The final truncation is
left to the caller (`sha256Rounds` masks each newly produced register once
per round), so the values below carry junk above bit 31.  `chF` and `majF`
are the standard mux/majority forms `Ch(x,y,z) = z xor (x and (y xor z))`
and `Maj(x,y,z) = ((x xor y) and (x xor z)) xor x`, which agree bitwise
with the FIPS 180-4 definitions.  The functions are written with the
`Nat.*` primitives directly, and the whole pipeline is validated against
the FIPS/RFC test vectors (`sha256_abc`, `pbkdf2_vector2`). -/

def chF (x y z : Nat) : Nat := Nat.xor z (Nat.land x (Nat.xor y z))

def majF (x y z : Nat) : Nat := Nat.xor (Nat.land (Nat.xor x y) (Nat.xor x z)) x

def bsig0 (x : Nat) : Nat :=
  let y := Nat.mul x 4294967297
  Nat.xor (Nat.shiftRight y 2) (Nat.xor (Nat.shiftRight y 13) (Nat.shiftRight y 22))

def bsig1 (x : Nat) : Nat :=
  let y := Nat.mul x 4294967297
  Nat.xor (Nat.shiftRight y 6) (Nat.xor (Nat.shiftRight y 11) (Nat.shiftRight y 25))

def ssig0 (x : Nat) : Nat :=
  let y := Nat.mul x 4294967297
  Nat.xor (Nat.shiftRight y 7) (Nat.xor (Nat.shiftRight y 18) (Nat.shiftRight x 3))

def ssig1 (x : Nat) : Nat :=
  let y := Nat.mul x 4294967297
  Nat.xor (Nat.shiftRight y 17) (Nat.xor (Nat.shiftRight y 19) (Nat.shiftRight x 10))

/-- The 64 SHA-256 round constants (FIPS 180-4, section 4.2.2). -/
def sha256K : List Nat :=
  [1116352408, 1899447441, 3049323471, 3921009573, 961987163, 1508970993, 2453635748, 2870763221,
   3624381080, 310598401, 607225278, 1426881987, 1925078388, 2162078206, 2614888103, 3248222580,
   3835390401, 4022224774, 264347078, 604807628, 770255983, 1249150122, 1555081692, 1996064986,
   2554220882, 2821834349, 2952996808, 3210313671, 3336571891, 3584528711, 113926993, 338241895,
   666307205, 773529912, 1294757372, 1396182291, 1695183700, 1986661051, 2177026350, 2456956037,
   2730485921, 2820302411, 3259730800, 3345764771, 3516065817, 3600352804, 4094571909, 275423344,
   430227734, 506948616, 659060556, 883997877, 958139571, 1322822218, 1537002063, 1747873779,
   1955562222, 2024104815, 2227730452, 2361852424, 2428436474, 2756734187, 3204031479, 3329325298]

/-- The SHA-256 initial hash value (FIPS 180-4, section 5.3.3). -/
def sha256H0 : List Nat :=
  [1779033703, 3144134277, 1013904242, 2773480762, 1359893119, 2600822924, 528734635, 1541459225]

/-- The SHA-256 compression rounds, one per remaining round constant, with
the 16-word message-schedule window and the 8 working variables carried as
explicit registers (the window shifts one word per round; `wn` is the next
scheduled word `W[t+16]`). -/
def sha256Rounds : List Nat →
    Nat → Nat → Nat → Nat → Nat → Nat → Nat → Nat →
    Nat → Nat → Nat → Nat → Nat → Nat → Nat → Nat →
    Nat → Nat → Nat → Nat → Nat → Nat → Nat → Nat → List Nat
  | [], _, _, _, _, _, _, _, _, _, _, _, _, _, _, _, _, a, b, c, d, e, f, g, h =>
      [a, b, c, d, e, f, g, h]
  | k :: ks, w0, w1, w2, w3, w4, w5, w6, w7, w8, w9, w10, w11, w12, w13, w14, w15,
    a, b, c, d, e, f, g, h =>
      let t1 := Nat.add (Nat.add (Nat.add (Nat.add h (bsig1 e)) (chF e f g)) k) w0
      let t2 := Nat.add (bsig0 a) (majF a b c)
      let wn := Nat.land (Nat.add (Nat.add (Nat.add (ssig1 w14) w9) (ssig0 w1)) w0) 4294967295
      sha256Rounds ks w1 w2 w3 w4 w5 w6 w7 w8 w9 w10 w11 w12 w13 w14 w15 wn
        (Nat.land (Nat.add t1 t2) 4294967295) a b c (Nat.land (Nat.add d t1) 4294967295) e f g

/-- Big-endian 32-bit words from bytes. -/
def bytesToWords : Bytes → List Nat
  | b0 :: b1 :: b2 :: b3 :: rest =>
      (((b0 * 256 + b1) * 256 + b2) * 256 + b3) :: bytesToWords rest
  | _ => []

/-- One SHA-256 compression of a 64-byte block into an 8-word state.
The fallback arms are unreachable for well-formed inputs (64-byte block,
8-word state) and return a fixed 8-word state so that the state shape is
invariant. -/
def compress (h : List Nat) (block : Bytes) : List Nat :=
  match bytesToWords block, h with
  | [w0, w1, w2, w3, w4, w5, w6, w7, w8, w9, w10, w11, w12, w13, w14, w15],
    [h0, h1, h2, h3, h4, h5, h6, h7] =>
      match sha256Rounds sha256K w0 w1 w2 w3 w4 w5 w6 w7 w8 w9 w10 w11 w12 w13 w14 w15
              h0 h1 h2 h3 h4 h5 h6 h7 with
      | [a, b, c, d, e, f, g, hh] =>
          [add32 h0 a, add32 h1 b, add32 h2 c, add32 h3 d,
           add32 h4 e, add32 h5 f, add32 h6 g, add32 h7 hh]
      | _ => List.replicate 8 0
  | _, _ => List.replicate 8 0

/-- Big-endian encoding of `n` into `k` bytes. -/
def toBytesBE : Nat → Nat → Bytes
  | 0, _ => []
  | k+1, n => (n >>> (8 * k)) % 256 :: toBytesBE k n

/-- Split into 64-byte chunks; the fuel argument makes the recursion
structural (one unit of fuel per produced chunk is enough since every
chunk consumes at least one byte). -/
def chunks64N : Nat → Bytes → List Bytes
  | 0, _ => []
  | n+1, l => if l.isEmpty then [] else l.take 64 :: chunks64N n (l.drop 64)

def chunks64 (l : Bytes) : List Bytes := chunks64N l.length l

/-- SHA-256 padding (FIPS 180-4, section 5.1.1). -/
def sha256pad (msg : Bytes) : Bytes :=
  msg ++ (0x80 :: List.replicate ((119 - msg.length % 64) % 64) 0) ++ toBytesBE 8 (msg.length * 8)

/-- SHA-256 of a byte string. -/
def sha256 (msg : Bytes) : Bytes :=
  ((chunks64 (sha256pad msg)).foldl compress sha256H0).flatMap (toBytesBE 4)

def xorBytes (a b : Bytes) : Bytes := (a.zip b).map fun p => p.1 ^^^ p.2

/-- HMAC-SHA256 (RFC 2104). -/
def hmacSha256 (key msg : Bytes) : Bytes :=
  let k0 := if key.length > 64 then sha256 key else key
  let kp := k0 ++ List.replicate (64 - k0.length) 0
  sha256 (kp.map (fun x => x ^^^ 0x5c) ++ sha256 (kp.map (fun x => x ^^^ 0x36) ++ msg))

/-- The tail of the PBKDF2 first-block chain: `n` further applications of
`U ← HMAC(pw, U)`, xor-accumulated. -/
def pbkdf2Loop (pw : Bytes) (u acc : Bytes) : Nat → Bytes
  | 0 => acc
  | n+1 =>
    let u2 := hmacSha256 pw u
    pbkdf2Loop pw u2 (xorBytes acc u2) n

/-- Model of `hashlib.pbkdf2_hmac("sha256", pw, salt, c)` with the default
`dklen` (the 32-byte SHA-256 digest size, hence exactly the first PBKDF2
block `T_1 = U_1 xor ... xor U_c`, RFC 2898).  `hashlib` rejects `c < 1`;
callers guard for that, so the `0` arm is unreachable. -/
def pbkdf2HmacSha256 (pw salt : Bytes) : Nat → Bytes
  | 0 => []
  | n+1 =>
    let u1 := hmacSha256 pw (salt ++ [0, 0, 0, 1])
    pbkdf2Loop pw u1 u1 n

/-! ### A faster but provably equal formulation

Concrete evaluation inside proofs is much cheaper with the textbook HMAC
optimisation: the two length-64 pad blocks depend only on the key, so
their compressions are done once and each loop iteration costs two
compressions.  `pbkdf2Fast` is proved equal to `pbkdf2HmacSha256` below
(for salts of length at most 51, which covers every use here). -/

/-- The second (final) block of a SHA-256 input of the form
`firstBlock ++ msg` with `msg.length ≤ 55`. -/
def midBlock (msg : Bytes) : Bytes :=
  msg ++ 0x80 :: List.replicate (55 - msg.length) 0 ++ toBytesBE 8 ((64 + msg.length) * 8)

/-- Digest of `firstBlockState` continued with a short second block. -/
def compressMid (st : List Nat) (msg : Bytes) : Bytes :=
  (compress st (midBlock msg)).flatMap (toBytesBE 4)

/-- HMAC-SHA256 of a short message given the two precompressed pad states. -/
def hmacMid (ist ost : List Nat) (msg : Bytes) : Bytes :=
  compressMid ost (compressMid ist msg)

def pbkdf2FastLoop (ist ost : List Nat) (u acc : Bytes) : Nat → Bytes
  | 0 => acc
  | n+1 =>
    let u2 := hmacMid ist ost u
    pbkdf2FastLoop ist ost u2 (xorBytes acc u2) n

def pbkdf2Fast (pw salt : Bytes) : Nat → Bytes
  | 0 => []
  | n+1 =>
    let k0 := if pw.length > 64 then sha256 pw else pw
    let kp := k0 ++ List.replicate (64 - k0.length) 0
    let ist := compress sha256H0 (kp.map (fun x => x ^^^ 0x36))
    let ost := compress sha256H0 (kp.map (fun x => x ^^^ 0x5c))
    let u1 := hmacMid ist ost (salt ++ [0, 0, 0, 1])
    pbkdf2FastLoop ist ost u1 u1 n

/-! ### A word-level formulation of the PBKDF2 inner loop

Inside the loop every HMAC input and output is exactly 32 bytes, i.e.
8 words.  Working on the 8-word lists directly avoids serialising each
intermediate state to bytes and back: `compressW st ws` is
`compressMid st` on the 32-byte message whose words are `ws` (for such a
message the padded block's schedule seed is
`ws ++ [0x80000000, 0, 0, 0, 0, 0, 0, 768]`), and the accumulator is
xored word by word.  The bridge lemmas `compressMid_words` /
`pbkdf2FastLoop_words` below prove this loop equal to the byte-level
one. -/

def wordsToBytes (ws : List Nat) : Bytes := ws.flatMap (toBytesBE 4)

def compressW (st m : List Nat) : List Nat :=
  match st, m with
  | [h0, h1, h2, h3, h4, h5, h6, h7], [m0, m1, m2, m3, m4, m5, m6, m7] =>
      match sha256Rounds sha256K m0 m1 m2 m3 m4 m5 m6 m7 2147483648 0 0 0 0 0 0 768
              h0 h1 h2 h3 h4 h5 h6 h7 with
      | [a, b, c, d, e, f, g, hh] =>
          [add32 h0 a, add32 h1 b, add32 h2 c, add32 h3 d,
           add32 h4 e, add32 h5 f, add32 h6 g, add32 h7 hh]
      | _ => List.replicate 8 0
  | _, _ => List.replicate 8 0

def hmacMidW (ist ost m : List Nat) : List Nat := compressW ost (compressW ist m)

def pbkdf2PairW (ist ost : List Nat) (u acc : List Nat) : Nat → List Nat × List Nat
  | 0 => (u, acc)
  | n+1 =>
    let u2 := hmacMidW ist ost u
    pbkdf2PairW ist ost u2 (List.zipWith (fun a b => a ^^^ b) acc u2) n

/-! ## UTF-8 (model of Python `str.encode("utf-8")`) -/

/-- UTF-8 encoding of one code point. -/
def utf8Char (c : Char) : Bytes :=
  let n := c.toNat
  if n < 0x80 then [n]
  else if n < 0x800 then [0xC0 ||| (n >>> 6), 0x80 ||| (n &&& 0x3F)]
  else if n < 0x10000 then
    [0xE0 ||| (n >>> 12), 0x80 ||| ((n >>> 6) &&& 0x3F), 0x80 ||| (n &&& 0x3F)]
  else
    [0xF0 ||| (n >>> 18), 0x80 ||| ((n >>> 12) &&& 0x3F), 0x80 ||| ((n >>> 6) &&& 0x3F),
     0x80 ||| (n &&& 0x3F)]

/-- Model of `password.encode("utf-8")`. -/
def utf8Encode (s : String) : Bytes := s.data.flatMap utf8Char

/-! ## Basic shape lemmas for the crypto layer -/

theorem sha256Rounds_length (ks : List Nat) :
    ∀ w0 w1 w2 w3 w4 w5 w6 w7 w8 w9 w10 w11 w12 w13 w14 w15 a b c d e f g h,
      (sha256Rounds ks w0 w1 w2 w3 w4 w5 w6 w7 w8 w9 w10 w11 w12 w13 w14 w15
        a b c d e f g h).length = 8 := by
  induction ks with
  | nil => intros; rfl
  | cons k ks ih => intros; rw [sha256Rounds]; exact ih _ _ _ _ _ _ _ _ _ _ _ _ _ _ _ _ _ _ _ _ _ _ _ _

theorem compress_length (h : List Nat) (block : Bytes) : (compress h block).length = 8 := by
  rw [compress.eq_def]
  split <;> first | rfl | (split <;> rfl)


theorem foldl_compress_length (bs : List Bytes) :
    ∀ h : List Nat, h.length = 8 → (bs.foldl compress h).length = 8 := by
  induction bs with
  | nil => intro h hh; exact hh
  | cons b bs ih => intro h _; exact ih _ (compress_length h b)

theorem toBytesBE_length (k n : Nat) : (toBytesBE k n).length = k := by
  induction k generalizing n with
  | zero => rfl
  | succ k ih => simp [toBytesBE, ih]

theorem toBytesBE_lt (k n : Nat) : ∀ x ∈ toBytesBE k n, x < 256 := by
  induction k generalizing n with
  | zero => intro x hx; cases hx
  | succ k ih =>
    intro x hx
    rcases hx with _ | ⟨_, hx⟩
    · exact Nat.mod_lt _ (by norm_num)
    · exact ih _ _ hx

theorem flatMap_toBytesBE4_length (l : List Nat) :
    (l.flatMap (toBytesBE 4)).length = 4 * l.length := by
  induction l with
  | nil => rfl
  | cons x l ih => simp [List.flatMap_cons, toBytesBE_length, ih]; ring

theorem sha256_length (msg : Bytes) : (sha256 msg).length = 32 := by
  rw [sha256, flatMap_toBytesBE4_length, foldl_compress_length _ sha256H0 rfl]

theorem sha256_lt (msg : Bytes) : ∀ x ∈ sha256 msg, x < 256 := by
  intro x hx
  rw [sha256, List.mem_flatMap] at hx
  obtain ⟨w, _, hx⟩ := hx
  exact toBytesBE_lt _ _ _ hx

theorem hmacSha256_length (key msg : Bytes) : (hmacSha256 key msg).length = 32 :=
  sha256_length _

theorem hmacSha256_lt (key msg : Bytes) : ∀ x ∈ hmacSha256 key msg, x < 256 :=
  sha256_lt _

theorem xorBytes_length (a b : Bytes) : (xorBytes a b).length = min a.length b.length := by
  simp [xorBytes]

theorem xorBytes_lt (a b : Bytes) (ha : ∀ x ∈ a, x < 256) (hb : ∀ x ∈ b, x < 256) :
    ∀ x ∈ xorBytes a b, x < 256 := by
  intro x hx
  rw [xorBytes, List.mem_map] at hx
  obtain ⟨⟨u, v⟩, huv, rfl⟩ := hx
  have hu : u < 256 := ha u (List.of_mem_zip huv).1
  have hv : v < 256 := hb v (List.of_mem_zip huv).2
  have : u ^^^ v < 2 ^ 8 := Nat.xor_lt_two_pow hu hv
  simpa using this

theorem pbkdf2Loop_length (pw : Bytes) (n : Nat) :
    ∀ u acc : Bytes, acc.length = 32 → (pbkdf2Loop pw u acc n).length = 32 := by
  induction n with
  | zero => intro u acc h; exact h
  | succ n ih =>
    intro u acc h
    rw [pbkdf2Loop]
    exact ih _ _ (by simp [xorBytes_length, h, hmacSha256_length])

theorem pbkdf2Loop_lt (pw : Bytes) (n : Nat) :
    ∀ u acc : Bytes, (∀ x ∈ acc, x < 256) → ∀ x ∈ pbkdf2Loop pw u acc n, x < 256 := by
  induction n with
  | zero => intro u acc h; exact h
  | succ n ih =>
    intro u acc h
    rw [pbkdf2Loop]
    exact ih _ _ (xorBytes_lt _ _ h (hmacSha256_lt _ _))

/-- The derived key of `pbkdf2HmacSha256` is always 32 bytes (for any
iteration count accepted by `hashlib`, i.e. `1 ≤ c`). -/
theorem pbkdf2HmacSha256_length (pw salt : Bytes) (c : Nat) (hc : 1 ≤ c) :
    (pbkdf2HmacSha256 pw salt c).length = 32 := by
  match c, hc with
  | n+1, _ =>
    rw [pbkdf2HmacSha256]
    exact pbkdf2Loop_length _ _ _ _ (hmacSha256_length _ _)

theorem pbkdf2HmacSha256_lt (pw salt : Bytes) (c : Nat) :
    ∀ x ∈ pbkdf2HmacSha256 pw salt c, x < 256 := by
  match c with
  | 0 => intro x hx; cases hx
  | n+1 =>
    rw [pbkdf2HmacSha256]
    exact pbkdf2Loop_lt _ _ _ _ (hmacSha256_lt _ _)

/-! ## Equivalence of the fast and the direct PBKDF2 formulation -/

theorem chunks64N_nil (n : Nat) : chunks64N n [] = [] := by
  cases n with
  | zero => rfl
  | succ n => simp [chunks64N]

theorem chunks64_two (a b : Bytes) (ha : a.length = 64) (hb1 : 1 ≤ b.length)
    (hb2 : b.length ≤ 64) : chunks64 (a ++ b) = [a, b] := by
  rw [chunks64]
  have hlen : (a ++ b).length = 64 + b.length := by simp [ha]
  rw [hlen]
  have h1 : 64 + b.length = (63 + b.length) + 1 := by omega
  rw [h1, chunks64N]
  have hne : (a ++ b).isEmpty = false := by
    cases a with
    | nil => simp at ha
    | cons x l => rfl
  rw [hne]
  simp only [if_neg Bool.false_ne_true]
  have htake : (a ++ b).take 64 = a := List.take_left' ha
  have hdrop : (a ++ b).drop 64 = b := List.drop_left' ha
  rw [htake, hdrop]
  have h2 : 63 + b.length = (62 + b.length) + 1 := by omega
  rw [h2, chunks64N]
  have hbne : b.isEmpty = false := by
    cases b with
    | nil => simp at hb1
    | cons x l => rfl
  rw [hbne]
  simp only [if_neg Bool.false_ne_true]
  rw [List.take_of_length_le hb2, List.drop_eq_nil_of_le hb2, chunks64N_nil]

theorem midBlock_length (msg : Bytes) (hm : msg.length ≤ 55) : (midBlock msg).length = 64 := by
  simp [midBlock, toBytesBE_length]
  omega

theorem sha256pad_two (a msg : Bytes) (ha : a.length = 64) (hm : msg.length ≤ 55) :
    sha256pad (a ++ msg) = a ++ midBlock msg := by
  rw [sha256pad, midBlock]
  have hlen : (a ++ msg).length = 64 + msg.length := by simp [ha]
  rw [hlen]
  have hz : (119 - (64 + msg.length) % 64) % 64 = 55 - msg.length := by omega
  rw [hz]
  simp

theorem sha256_two_blocks (a msg : Bytes) (ha : a.length = 64) (hm : msg.length ≤ 55) :
    sha256 (a ++ msg) = compressMid (compress sha256H0 a) msg := by
  rw [sha256, sha256pad_two a msg ha hm,
    chunks64_two a (midBlock msg) ha (by rw [midBlock_length msg hm]; omega)
      (by rw [midBlock_length msg hm]),
    compressMid]
  rfl

theorem hmacSha256_eq_hmacMid (pw msg : Bytes) (hm : msg.length ≤ 55) :
    hmacSha256 pw msg =
      hmacMid
        (compress sha256H0
          (((if pw.length > 64 then sha256 pw else pw) ++
            List.replicate (64 - (if pw.length > 64 then sha256 pw else pw).length) 0).map
            (fun x => x ^^^ 0x36)))
        (compress sha256H0
          (((if pw.length > 64 then sha256 pw else pw) ++
            List.replicate (64 - (if pw.length > 64 then sha256 pw else pw).length) 0).map
            (fun x => x ^^^ 0x5c)))
        msg := by
  rw [hmacSha256]
  have hk0 : (if pw.length > 64 then sha256 pw else pw).length ≤ 64 := by
    split
    · rw [sha256_length]; omega
    · omega
  generalize hg : (if pw.length > 64 then sha256 pw else pw) = k0 at hk0 ⊢
  have hkp : (k0 ++ List.replicate (64 - k0.length) 0).length = 64 := by
    simp
    omega
  rw [sha256_two_blocks _ msg (by rw [List.length_map]; exact hkp) hm]
  rw [sha256_two_blocks _ _ (by rw [List.length_map]; exact hkp)
    (by rw [compressMid, flatMap_toBytesBE4_length, compress_length]; omega)]
  rw [hmacMid]

theorem compressMid_length (st : List Nat) (msg : Bytes) : (compressMid st msg).length = 32 := by
  rw [compressMid, flatMap_toBytesBE4_length, compress_length]

theorem pbkdf2FastLoop_eq (pw : Bytes) (n : Nat) :
    ∀ u acc : Bytes, u.length = 32 →
      pbkdf2FastLoop
        (compress sha256H0
          (((if pw.length > 64 then sha256 pw else pw) ++
            List.replicate (64 - (if pw.length > 64 then sha256 pw else pw).length) 0).map
            (fun x => x ^^^ 0x36)))
        (compress sha256H0
          (((if pw.length > 64 then sha256 pw else pw) ++
            List.replicate (64 - (if pw.length > 64 then sha256 pw else pw).length) 0).map
            (fun x => x ^^^ 0x5c)))
        u acc n = pbkdf2Loop pw u acc n := by
  induction n with
  | zero => intro u acc _; rfl
  | succ n ih =>
    intro u acc hu
    rw [pbkdf2FastLoop, pbkdf2Loop, ← hmacSha256_eq_hmacMid pw u (by omega)]
    exact ih _ _ (hmacSha256_length _ _)

/-- The optimised PBKDF2 computes the same key as the direct RFC 2898
formulation, for any salt of length at most 51 bytes. -/
theorem pbkdf2Fast_eq (pw salt : Bytes) (c : Nat) (hs : salt.length ≤ 51) :
    pbkdf2Fast pw salt c = pbkdf2HmacSha256 pw salt c := by
  cases c with
  | zero => rfl
  | succ n =>
    rw [pbkdf2Fast, pbkdf2HmacSha256,
      ← hmacSha256_eq_hmacMid pw (salt ++ [0, 0, 0, 1]) (by simp; omega)]
    exact pbkdf2FastLoop_eq pw n _ _ (hmacSha256_length _ _)

/-! ### Equivalence of the word-level and the byte-level inner loop -/

theorem toBytesBE_four (n : Nat) :
    toBytesBE 4 n = [(n >>> 24) % 256, (n >>> 16) % 256, (n >>> 8) % 256, (n >>> 0) % 256] := rfl

theorem bytesToWords_cons4 (b0 b1 b2 b3 : Nat) (r : Bytes) :
    bytesToWords (b0 :: b1 :: b2 :: b3 :: r) =
      (((b0 * 256 + b1) * 256 + b2) * 256 + b3) :: bytesToWords r := rfl

theorem wordsToBytes_cons (w : Nat) (t : List Nat) :
    wordsToBytes (w :: t) = toBytesBE 4 w ++ wordsToBytes t := rfl

theorem word_recombine (w : Nat) (hw : w < 4294967296) :
    (((w >>> 24) % 256 * 256 + (w >>> 16) % 256) * 256 + (w >>> 8) % 256) * 256 +
      (w >>> 0) % 256 = w := by
  rw [Nat.shiftRight_eq_div_pow, Nat.shiftRight_eq_div_pow, Nat.shiftRight_eq_div_pow,
    Nat.shiftRight_eq_div_pow,
    show (2 : Nat) ^ 24 = 16777216 from rfl, show (2 : Nat) ^ 16 = 65536 from rfl,
    show (2 : Nat) ^ 8 = 256 from rfl, show (2 : Nat) ^ 0 = 1 from rfl]
  omega

theorem bytesToWords_words (ws : List Nat) (r : Bytes) :
    (∀ w ∈ ws, w < 4294967296) →
      bytesToWords (wordsToBytes ws ++ r) = ws ++ bytesToWords r := by
  induction ws with
  | nil => intro _; rfl
  | cons w t ih =>
    intro h
    rw [wordsToBytes_cons, List.append_assoc, toBytesBE_four]
    simp only [List.cons_append, List.nil_append]
    rw [bytesToWords_cons4, word_recombine w (h w (List.mem_cons_self w t)),
      ih (fun x hx => h x (List.mem_cons_of_mem w hx))]

theorem compressW_length (st m : List Nat) : (compressW st m).length = 8 := by
  rw [compressW.eq_def]
  split <;> first | rfl | (split <;> rfl)

theorem compressW_lt (st m : List Nat) : ∀ x ∈ compressW st m, x < 4294967296 := by
  rw [compressW.eq_def]
  split
  · split
    · intro x hx
      simp only [List.mem_cons, List.not_mem_nil, or_false] at hx
      simp only [add32] at hx
      rcases hx with rfl | rfl | rfl | rfl | rfl | rfl | rfl | rfl <;>
        exact Nat.mod_lt _ (by decide)
    · intro x hx
      rw [List.eq_of_mem_replicate hx]
      decide
  · intro x hx
    rw [List.eq_of_mem_replicate hx]
    decide

theorem xor_byte_shift (x y k : Nat) :
    (x >>> k) % 256 ^^^ (y >>> k) % 256 = ((x ^^^ y) >>> k) % 256 := by
  apply Nat.eq_of_testBit_eq
  intro i
  rw [show (256 : Nat) = 2 ^ 8 from rfl]
  simp only [Nat.testBit_mod_two_pow, Nat.testBit_xor, Nat.testBit_shiftRight]
  by_cases hi : i < 8 <;> simp [hi]

theorem xor_byte_mod (x y : Nat) : x % 256 ^^^ y % 256 = (x ^^^ y) % 256 := by
  simpa using xor_byte_shift x y 0

theorem xorBytes_four (x y : Nat) :
    xorBytes (toBytesBE 4 x) (toBytesBE 4 y) = toBytesBE 4 (x ^^^ y) := by
  show [(x >>> 24) % 256 ^^^ (y >>> 24) % 256, (x >>> 16) % 256 ^^^ (y >>> 16) % 256,
        (x >>> 8) % 256 ^^^ (y >>> 8) % 256, (x >>> 0) % 256 ^^^ (y >>> 0) % 256] =
      [((x ^^^ y) >>> 24) % 256, ((x ^^^ y) >>> 16) % 256, ((x ^^^ y) >>> 8) % 256,
       ((x ^^^ y) >>> 0) % 256]
  rw [xor_byte_shift, xor_byte_shift, xor_byte_shift, xor_byte_shift]

theorem xorBytes_append (a b c d : Bytes) (h : a.length = c.length) :
    xorBytes (a ++ b) (c ++ d) = xorBytes a c ++ xorBytes b d := by
  rw [xorBytes, xorBytes, xorBytes, List.zip_append h, List.map_append]

theorem xorBytes_words (a : List Nat) :
    ∀ b : List Nat, a.length = b.length →
      xorBytes (wordsToBytes a) (wordsToBytes b) =
        wordsToBytes (List.zipWith (fun x y => x ^^^ y) a b) := by
  induction a with
  | nil =>
    intro b h
    cases b with
    | nil => rfl
    | cons y s => simp at h
  | cons x t ih =>
    intro b h
    cases b with
    | nil => simp at h
    | cons y s =>
      have hl : t.length = s.length := by simpa using h
      rw [wordsToBytes_cons, wordsToBytes_cons,
        xorBytes_append _ _ _ _ (by rw [toBytesBE_length, toBytesBE_length]),
        xorBytes_four, ih s hl, List.zipWith_cons_cons, wordsToBytes_cons]

theorem exists_eight (l : List Nat) (h : l.length = 8) :
    ∃ y0 y1 y2 y3 y4 y5 y6 y7, l = [y0, y1, y2, y3, y4, y5, y6, y7] := by
  rcases l with _ | ⟨y0, _ | ⟨y1, _ | ⟨y2, _ | ⟨y3, _ | ⟨y4, _ | ⟨y5, _ | ⟨y6, _ |
    ⟨y7, _ | ⟨y8, l⟩⟩⟩⟩⟩⟩⟩⟩⟩ <;>
    first
      | exact ⟨_, _, _, _, _, _, _, _, rfl⟩
      | (simp at h <;> omega)

theorem compressMid_words (st ws : List Nat) (hst : st.length = 8) (hws8 : ws.length = 8)
    (hws : ∀ w ∈ ws, w < 4294967296) :
    compressMid st (wordsToBytes ws) = wordsToBytes (compressW st ws) := by
  obtain ⟨h0, h1, h2, h3, h4, h5, h6, h7, rfl⟩ := exists_eight st hst
  obtain ⟨m0, m1, m2, m3, m4, m5, m6, m7, rfl⟩ := exists_eight ws hws8
  have hlen : (wordsToBytes [m0, m1, m2, m3, m4, m5, m6, m7]).length = 32 := by
    rw [wordsToBytes, flatMap_toBytesBE4_length]
    rfl
  have hbw : bytesToWords (midBlock (wordsToBytes [m0, m1, m2, m3, m4, m5, m6, m7])) =
      [m0, m1, m2, m3, m4, m5, m6, m7] ++ [2147483648, 0, 0, 0, 0, 0, 0, 768] := by
    rw [midBlock, hlen, List.append_assoc, bytesToWords_words _ _ hws]
    rfl
  rw [compressMid, compress.eq_def, hbw]
  simp only [List.cons_append, List.nil_append]
  rw [compressW.eq_def]
  rfl

theorem hmacMid_words (ist ost : List Nat) (hist : ist.length = 8) (host : ost.length = 8)
    (ws : List Nat) (hws8 : ws.length = 8) (hws : ∀ w ∈ ws, w < 4294967296) :
    hmacMid ist ost (wordsToBytes ws) = wordsToBytes (hmacMidW ist ost ws) := by
  rw [hmacMid, compressMid_words ist ws hist hws8 hws,
    compressMid_words ost _ host (compressW_length _ _) (compressW_lt _ _), hmacMidW]

theorem zipWith_xor_lt (a : List Nat) :
    ∀ b : List Nat, (∀ x ∈ a, x < 4294967296) → (∀ x ∈ b, x < 4294967296) →
      ∀ x ∈ List.zipWith (fun p q => p ^^^ q) a b, x < 4294967296 := by
  induction a with
  | nil => intro b _ _ x hx; simp at hx
  | cons p t ih =>
    intro b ha hb x hx
    cases b with
    | nil => simp at hx
    | cons q s =>
      rw [List.zipWith_cons_cons] at hx
      rcases List.mem_cons.mp hx with rfl | hx2
      · have h1 : p < 2 ^ 32 := ha p (by simp)
        have h2 : q < 2 ^ 32 := hb q (by simp)
        exact Nat.xor_lt_two_pow h1 h2
      · exact ih s (fun z hz => ha z (by simp [hz])) (fun z hz => hb z (by simp [hz])) x hx2

theorem pbkdf2FastLoop_words (ist ost : List Nat) (hist : ist.length = 8)
    (host : ost.length = 8) :
    ∀ (n : Nat) (u acc : List Nat), u.length = 8 → (∀ x ∈ u, x < 4294967296) →
      acc.length = 8 → (∀ x ∈ acc, x < 4294967296) →
      pbkdf2FastLoop ist ost (wordsToBytes u) (wordsToBytes acc) n =
        wordsToBytes ((pbkdf2PairW ist ost u acc n).2) := by
  intro n
  induction n with
  | zero => intro u acc _ _ _ _; rfl
  | succ n ih =>
    intro u acc hu8 hu ha8 hacc
    rw [pbkdf2FastLoop, hmacMid_words ist ost hist host u hu8 hu,
      xorBytes_words acc (hmacMidW ist ost u)
        (by rw [ha8, hmacMidW, compressW_length])]
    exact ih (hmacMidW ist ost u) _
      (by rw [hmacMidW]; exact compressW_length _ _)
      (by rw [hmacMidW]; exact compressW_lt _ _)
      (by simp [List.length_zipWith, ha8, hmacMidW, compressW_length])
      (zipWith_xor_lt acc _ hacc (by rw [hmacMidW]; exact compressW_lt _ _))

theorem pairW_add (ist ost : List Nat) (u acc : List Nat) (m n : Nat) :
    pbkdf2PairW ist ost u acc (m + n) =
      pbkdf2PairW ist ost (pbkdf2PairW ist ost u acc m).1
        (pbkdf2PairW ist ost u acc m).2 n := by
  induction m generalizing u acc with
  | zero =>
    rw [Nat.zero_add]
    rfl
  | succ k ih =>
    rw [Nat.succ_add]
    show pbkdf2PairW ist ost (hmacMidW ist ost u)
        (List.zipWith (fun a b => a ^^^ b) acc (hmacMidW ist ost u)) (k + n) = _
    rw [ih]
    rfl

theorem pairW_add2 (ist ost u acc : List Nat) (m n : Nat) (u2 acc2 : List Nat)
    (h : pbkdf2PairW ist ost u acc m = (u2, acc2)) :
    pbkdf2PairW ist ost u acc (m + n) = pbkdf2PairW ist ost u2 acc2 n := by
  rw [pairW_add, h]

theorem pbkdf2Fast_succ (pw salt : Bytes) (n : Nat) (h : ¬ pw.length > 64) :
    pbkdf2Fast pw salt (n + 1) =
      pbkdf2FastLoop
        (compress sha256H0
          ((pw ++ List.replicate (64 - pw.length) 0).map (fun x => x ^^^ 0x36)))
        (compress sha256H0
          ((pw ++ List.replicate (64 - pw.length) 0).map (fun x => x ^^^ 0x5c)))
        (hmacMid
          (compress sha256H0
            ((pw ++ List.replicate (64 - pw.length) 0).map (fun x => x ^^^ 0x36)))
          (compress sha256H0
            ((pw ++ List.replicate (64 - pw.length) 0).map (fun x => x ^^^ 0x5c)))
          (salt ++ [0, 0, 0, 1]))
        (hmacMid
          (compress sha256H0
            ((pw ++ List.replicate (64 - pw.length) 0).map (fun x => x ^^^ 0x36)))
          (compress sha256H0
            ((pw ++ List.replicate (64 - pw.length) 0).map (fun x => x ^^^ 0x5c)))
          (salt ++ [0, 0, 0, 1]))
        n := by
  simp only [pbkdf2Fast, if_neg h]

/-! ### Sanity checks against published test vectors -/

/-- FIPS 180-4 test vector: SHA-256 of "abc". -/
theorem sha256_abc :
    sha256 [97, 98, 99] =
      [0xba, 0x78, 0x16, 0xbf, 0x8f, 0x01, 0xcf, 0xea, 0x41, 0x41, 0x40, 0xde, 0x5d, 0xae,
       0x22, 0x23, 0xb0, 0x03, 0x61, 0xa3, 0x96, 0x17, 0x7a, 0x9c, 0xb4, 0x10, 0xff, 0x61,
       0xf2, 0x00, 0x15, 0xad] := by decide!

/-- PBKDF2-HMAC-SHA256 test vector (password "password", salt "salt", c = 2). -/
theorem pbkdf2_vector2 :
    pbkdf2HmacSha256 (utf8Encode "password") (utf8Encode "salt") 2 =
      [0xae, 0x4d, 0x0c, 0x95, 0xaf, 0x6b, 0x46, 0xd3, 0x2d, 0x0a, 0xdf, 0xf9, 0x28, 0xf0,
       0x6d, 0xd0, 0x2a, 0x30, 0x3f, 0x8e, 0xf3, 0xc2, 0x51, 0xdf, 0xd6, 0xe2, 0xd8, 0x5a,
       0x95, 0x47, 0x4c, 0x43] := by decide!

/-! ## Python string and library semantics used by the module -/

/-- The ASCII whitespace stripped by Python `str.strip()`.  (CPython also
strips non-ASCII Unicode whitespace; no stored credential in the claims
involves those, and the module's behaviour on them is otherwise
identical.) -/
def isPySpace (c : Char) : Bool :=
  c = ' ' || c = '\t' || c = '\n' || c = '\r' || c = '\x0b' || c = '\x0c'

/-- Model of `str.strip()`. -/
def pyStripL (l : List Char) : List Char :=
  ((l.dropWhile isPySpace).reverse.dropWhile isPySpace).reverse

/-- Model of `str.split(sep, maxsplit)` for a one-character separator:
`n` is the number of splits still allowed and `cur` the current field,
reversed. -/
def pySplitGo (sep : Char) : Nat → List Char → List Char → List (List Char)
  | _, cur, [] => [cur.reverse]
  | 0, cur, c :: rest =>
      if c = sep then [cur.reverse ++ c :: rest]
      else pySplitGo sep 0 (c :: cur) rest
  | m+1, cur, c :: rest =>
      if c = sep then cur.reverse :: pySplitGo sep m [] rest
      else pySplitGo sep (m+1) (c :: cur) rest

/-- Model of `str.split(sep)` / `str.split(sep, maxsplit)`; `none` is
Python's unlimited maxsplit (the input length is enough fuel, since every
split consumes a separator character). -/
def pySplit (sep : Char) (maxsplit : Option Nat) (l : List Char) : List (List Char) :=
  pySplitGo sep (match maxsplit with | some m => m | none => l.length) [] l

def isDigitC (c : Char) : Bool := 48 ≤ c.toNat && c.toNat ≤ 57

/-- Validity of the part of an `int()` literal after the first digit:
digits or single interior underscores; the flag records whether the
previous character was an underscore (an underscore may neither follow
another underscore nor end the literal). -/
def udScan : Bool → List Char → Bool
  | b, [] => !b
  | b, c :: rest =>
      if c = '_' then
        if b then false else udScan true rest
      else isDigitC c && udScan false rest

/-- A valid unsigned `int()` literal body: a digit, then `udScan`. -/
def validDigits : List Char → Bool
  | [] => false
  | c :: rest => isDigitC c && udScan false rest

def digitsVal (l : List Char) : Nat := l.foldl (fun a c => a * 10 + (c.toNat - 48)) 0

/-- Model of Python `int(str)`: strip whitespace, one optional sign, ASCII
decimal digits with single interior underscores.  (CPython additionally
accepts non-ASCII decimal digits; no claim involves those.) -/
def pyInt (l : List Char) : Except Unit Int :=
  let t := pyStripL l
  match t with
  | '+' :: r =>
      if validDigits r then .ok (digitsVal (r.filter (fun c => c ≠ '_')) : Int) else .error ()
  | '-' :: r =>
      if validDigits r then .ok (-(digitsVal (r.filter (fun c => c ≠ '_')) : Int)) else .error ()
  | r =>
      if validDigits r then .ok (digitsVal (r.filter (fun c => c ≠ '_')) : Int) else .error ()

def digitChar : Nat → Char
  | 0 => '0' | 1 => '1' | 2 => '2' | 3 => '3' | 4 => '4'
  | 5 => '5' | 6 => '6' | 7 => '7' | 8 => '8' | _ => '9'

/-- Decimal digits of `n`, most significant first, with enough fuel. -/
def natReprAux : Nat → Nat → List Char → List Char
  | 0, _, acc => acc
  | fuel+1, n, acc =>
      if n < 10 then digitChar n :: acc
      else natReprAux fuel (n / 10) (digitChar (n % 10) :: acc)

/-- Decimal representation of a natural number: the model of Python's
`f"{iterations}"` for the module's nonnegative iteration counts. -/
def natRepr (n : Nat) : List Char := natReprAux (n + 1) n []

/-! ### base64 (models of the `base64`/`binascii` routines used) -/

def b64Alphabet : List Char :=
  "ABCDEFGHIJKLMNOPQRSTUVWXYZabcdefghijklmnopqrstuvwxyz0123456789+/".data

def b64EncChar (n : Nat) : Char := b64Alphabet.getD n 'A'

def b64DecVal (c : Char) : Option Nat := b64Alphabet.findIdx? (fun d => d = c)

/-- Model of `base64.b64encode`: 3-byte groups to 4 characters, `=`-padded.
(Written with `/`, `%`, `*`: the bit-level shifts of the C implementation
on bytes `< 256` are exactly these.) -/
def b64EncodeGroups : Bytes → List Char
  | [] => []
  | [b0] => [b64EncChar (b0 / 4), b64EncChar (b0 % 4 * 16), '=', '=']
  | [b0, b1] =>
      [b64EncChar (b0 / 4), b64EncChar (b0 % 4 * 16 + b1 / 16), b64EncChar (b1 % 16 * 4), '=']
  | b0 :: b1 :: b2 :: rest =>
      b64EncChar (b0 / 4) :: b64EncChar (b0 % 4 * 16 + b1 / 16) ::
      b64EncChar (b1 % 16 * 4 + b2 / 64) :: b64EncChar (b2 % 64) :: b64EncodeGroups rest

def b64encode (b : Bytes) : List Char := b64EncodeGroups b

def toUrlChar (c : Char) : Char := if c = '+' then '-' else if c = '/' then '_' else c

/-- Model of `base64.urlsafe_b64encode`. -/
def urlsafeB64encode (b : Bytes) : List Char := (b64EncodeGroups b).map toUrlChar

/-- Model of `.rstrip("=")`. -/
def rstripEq (l : List Char) : List Char := (l.reverse.dropWhile (fun c => c = '=')).reverse

/-- Model of CPython `binascii.a2b_base64` in its default non-strict mode:
characters outside the alphabet are discarded; `=` increments a padding
counter and completes a quad of 2 or 3 data characters (further input is
then ignored); a final incomplete quad is an error.  State: remaining
input, `quad` position (0-3), `left` carry bits, `pads`, and the output
accumulator (reversed). -/
def a2bGo : List Char → Nat → Nat → Nat → Bytes → Except Unit Bytes
  | [], 0, _, _, acc => .ok acc.reverse
  | [], _+1, _, _, _ => .error ()
  | c :: rest, quad, left, pads, acc =>
      if c = '=' then
        if 2 ≤ quad ∧ 4 ≤ quad + (pads + 1) then .ok acc.reverse
        else a2bGo rest quad left (pads + 1) acc
      else
        match b64DecVal c with
        | none => a2bGo rest quad left pads acc
        | some v =>
          match quad with
          | 0 => a2bGo rest 1 v 0 acc
          | 1 => a2bGo rest 2 (v % 16) 0 ((left * 4 + v / 16) :: acc)
          | 2 => a2bGo rest 3 (v % 4) 0 ((left * 16 + v / 4) :: acc)
          | _ => a2bGo rest 0 0 0 ((left * 64 + v) :: acc)

/-- Model of `base64.b64decode` on a `str` argument: ASCII-encode (error on
any non-ASCII character), then `a2b_base64`. -/
def b64decode (l : List Char) : Except Unit Bytes :=
  if l.all (fun c => c.toNat < 128) then a2bGo l 0 0 0 [] else .error ()

def fromUrlChar (c : Char) : Char := if c = '-' then '+' else if c = '_' then '/' else c

/-- Model of `base64.urlsafe_b64decode` on a `str` argument. -/
def urlsafeB64decode (l : List Char) : Except Unit Bytes := b64decode (l.map fromUrlChar)

/-! ## The module `make_admin_hash.py` -/

/-- The type of the external key-derivation primitive
`hashlib.pbkdf2_hmac("sha256", password, salt, iterations)`:
password bytes, salt bytes and iteration count to derived key.
Theorems that depend only on the module's own parsing and dispatch logic
quantify over it; `pbkdf2HmacSha256` is its concrete value. -/
abbrev Prf := Bytes → Bytes → Nat → Bytes

def _DEF_ITERS : Nat := 260000

/-- make_admin_hash._pbkdf2_sha256. -/
def _pbkdf2_sha256 (prf : Prf) (password : String) (salt : Bytes) (iterations : Nat) : Bytes :=
  prf (utf8Encode password) salt iterations

/-- The call `_pbkdf2_sha256(password, salt, iterations)` as it behaves
inside `verify_password`, where the iteration count is an arbitrary parsed
integer: `hashlib.pbkdf2_hmac` raises `ValueError` for an iteration count
below 1 (modelled as the error case). -/
def pbkdf2CallStr (prf : Prf) (password : String) (salt : Bytes) (iterations : Int) :
    Except Unit Bytes :=
  if 1 ≤ iterations then .ok (_pbkdf2_sha256 prf password salt iterations.toNat)
  else .error ()

/-- make_admin_hash._consteq, i.e. `hmac.compare_digest` on bytes: length
equality conjoined with an or-accumulation of bytewise xors; the fold
traverses every zipped position whatever the contents. -/
def _consteq (a b : Bytes) : Bool :=
  (a.length == b.length) && ((a.zip b).foldl (fun acc p => acc ||| (p.1 ^^^ p.2)) 0 == 0)

/-- make_admin_hash.hash_password, with the `os.urandom(16)` draw passed
in as `rnd`. -/
def hash_password (prf : Prf) (password : String) (iterations : Nat) (rnd : Bytes) : String :=
  let salt := rstripEq (urlsafeB64encode rnd)
  let saltBytes := match urlsafeB64decode (salt ++ "==".data) with
    | .ok s => s
    | .error _ => []
  let dk := _pbkdf2_sha256 prf password saltBytes iterations
  let digest_b64 := rstripEq (urlsafeB64encode dk)
  String.mk ("pbkdf2_sha256$".data ++ natRepr iterations ++ "$".data ++ salt
    ++ "$".data ++ digest_b64)

/-- make_admin_hash.hash_password_legacy_b64pack, with the `os.urandom(16)`
draw passed in as `rnd`. -/
def hash_password_legacy_b64pack (prf : Prf) (password : String) (iterations : Nat)
    (rnd : Bytes) : String :=
  let dk := _pbkdf2_sha256 prf password rnd iterations
  String.mk (b64encode (rnd ++ dk))

/-- The `pbkdf2_sha256$...` (Django-style) branch of verify_password. -/
def parseCanonical (prf : Prf) (password : String) (s : List Char) : Except Unit Bool :=
  match pySplit '$' (some 3) s with
  | [_, itersS, salt_b64, dig_b64] => do
      let iters ← pyInt itersS
      let salt ← urlsafeB64decode (salt_b64 ++ "==".data)
      let want ← urlsafeB64decode (dig_b64 ++ "==".data)
      let got ← pbkdf2CallStr prf password salt iters
      pure (_consteq got want)
  | _ => .error ()

/-- List indexing `l[i]`, raising IndexError. -/
def getItem (l : List (List Char)) (i : Nat) : Except Unit (List Char) :=
  match l.get? i with
  | some x => .ok x
  | none => .error ()

/-- The `pbkdf2:sha256:...` (Flask/Passlib-style) branch of
verify_password. -/
def parseAlternate (prf : Prf) (password : String) (s : List Char) : Except Unit Bool :=
  match pySplit ':' (some 2) s with
  | [_, _algo, iters_salt_hash] => do
      let parts := pySplit '$' none iters_salt_hash
      let itersS ← getItem parts 0
      let iters ← pyInt itersS
      let salt_b64 ← getItem parts 1
      let dig_b64 ← getItem parts 2
      let salt ← urlsafeB64decode (salt_b64 ++ "==".data)
      let want ← urlsafeB64decode (dig_b64 ++ "==".data)
      let got ← pbkdf2CallStr prf password salt iters
      pure (_consteq got want)
  | _ => .error ()

/-- The `$pbkdf2-sha256$...` (modular-crypt-style) branch of
verify_password. -/
def parseModular (prf : Prf) (password : String) (s : List Char) : Except Unit Bool :=
  match pySplit '$' (some 4) s with
  | [_, _scheme, itersS, salt_b64, dig_b64] => do
      let iters ← pyInt itersS
      let salt ← urlsafeB64decode (salt_b64 ++ "==".data)
      let want ← urlsafeB64decode (dig_b64 ++ "==".data)
      let got ← pbkdf2CallStr prf password salt iters
      pure (_consteq got want)
  | _ => .error ()

/-- The legacy `base64(salt+digest)` fallback of verify_password. -/
def parseLegacy (prf : Prf) (password : String) (s : List Char) : Except Unit Bool := do
  let raw ← b64decode s
  if 16 ≤ raw.length then
    let got ← pbkdf2CallStr prf password (raw.take 16) (_DEF_ITERS : Int)
    pure (_consteq got (raw.drop 16))
  else
    pure false

/-- The body of verify_password's `try` block, on the stripped stored
string. -/
def verifyBody (prf : Prf) (password : String) (s : List Char) : Except Unit Bool :=
  if "pbkdf2_sha256$".data.isPrefixOf s then parseCanonical prf password s
  else if "pbkdf2:sha256:".data.isPrefixOf s then parseAlternate prf password s
  else if "$pbkdf2-sha256$".data.isPrefixOf s then parseModular prf password s
  else parseLegacy prf password s

/-- make_admin_hash.verify_password; the outer match is the
`try/except Exception: return False`. -/
def verify_password (prf : Prf) (password stored : String) : Bool :=
  match verifyBody prf password (pyStripL stored.data) with
  | .ok b => b
  | .error _ => false

/-! ### The spec's dispatch model (ordered predicate/parser table) -/

/-- The spec's model of the format dispatch: an ordered list of
(predicate, parser) pairs tried in sequence, falling through to the
legacy parser. -/
def specFormatTable (prf : Prf) (password : String) :
    List ((List Char → Bool) × (List Char → Except Unit Bool)) :=
  [(fun s => "pbkdf2_sha256$".data.isPrefixOf s, parseCanonical prf password),
   (fun s => "pbkdf2:sha256:".data.isPrefixOf s, parseAlternate prf password),
   (fun s => "$pbkdf2-sha256$".data.isPrefixOf s, parseModular prf password)]

/-- Verification as the spec describes it: first matching format of the
ordered table, legacy fallback, failures collapsed to false. -/
def dispatchVerify (prf : Prf) (password stored : String) : Bool :=
  let s := pyStripL stored.data
  let r := match (specFormatTable prf password).find? (fun pr => pr.1 s) with
    | some pr => pr.2 s
    | none => parseLegacy prf password s
  match r with
  | .ok b => b
  | .error _ => false

/-! ## Lemmas: stripping -/

theorem dropWhile_eq_self_of_head (l : List Char) (h : ∀ c ∈ l, isPySpace c = false) :
    l.dropWhile isPySpace = l := by
  cases l with
  | nil => rfl
  | cons c rest => rw [List.dropWhile_cons, h c (by simp)]; simp

theorem pyStripL_eq_self (l : List Char) (h : ∀ c ∈ l, isPySpace c = false) :
    pyStripL l = l := by
  rw [pyStripL, dropWhile_eq_self_of_head l h,
    dropWhile_eq_self_of_head l.reverse (by intro c hc; exact h c (List.mem_reverse.mp hc)),
    List.reverse_reverse]

theorem dropWhile_space_append (w l : List Char) (hw : ∀ c ∈ w, isPySpace c = true) :
    (w ++ l).dropWhile isPySpace = l.dropWhile isPySpace := by
  induction w with
  | nil => rfl
  | cons c w ih =>
    rw [List.cons_append, List.dropWhile_cons, hw c (by simp)]
    exact ih (fun d hd => hw d (by simp [hd]))

theorem pyStripL_pad (w1 w2 l : List Char) (h1 : ∀ c ∈ w1, isPySpace c = true)
    (h2 : ∀ c ∈ w2, isPySpace c = true) :
    pyStripL (w1 ++ l ++ w2) = pyStripL l := by
  rw [pyStripL, pyStripL, List.append_assoc, dropWhile_space_append w1 (l ++ w2) h1]
  have : (l ++ w2).dropWhile isPySpace = (l.dropWhile isPySpace) ++ w2 ∨
      ((l ++ w2).dropWhile isPySpace = w2.dropWhile isPySpace ∧ l.dropWhile isPySpace = []) := by
    induction l with
    | nil => right; exact ⟨rfl, rfl⟩
    | cons c rest ih =>
      by_cases hc : isPySpace c = true
      · rw [List.cons_append, List.dropWhile_cons, hc, List.dropWhile_cons, hc]
        simpa using ih
      · left
        rw [List.cons_append, List.dropWhile_cons, eq_false_of_ne_true hc,
          List.dropWhile_cons, eq_false_of_ne_true hc]
        simp
  rcases this with heq | ⟨heq, hnil⟩
  · rw [heq, List.reverse_append, dropWhile_space_append _ _
      (fun c hc => h2 c (List.mem_reverse.mp hc))]
  · rw [heq, hnil]
    have : w2.dropWhile isPySpace = [] := by
      rw [List.dropWhile_eq_nil_iff]
      intro c hc
      simp [h2 c hc]
    simp [this]

/-! ## Lemmas: splitting -/

theorem pySplitGo_no_sep (sep : Char) (l : List Char) (hl : sep ∉ l) :
    ∀ n cur, pySplitGo sep n cur l = [cur.reverse ++ l] := by
  induction l with
  | nil => intro n cur; simp [pySplitGo]
  | cons c rest ih =>
    intro n cur
    have hc : ¬(c = sep) := fun h => hl (by simp [h])
    have hrest : sep ∉ rest := fun h => hl (by simp [h])
    cases n with
    | zero => rw [pySplitGo, if_neg hc, ih hrest]; simp
    | succ m => rw [pySplitGo, if_neg hc, ih hrest]; simp

theorem pySplitGo_sep_cons (sep : Char) (a : List Char) (ha : sep ∉ a) (m : Nat)
    (rest : List Char) :
    ∀ cur, pySplitGo sep (m + 1) cur (a ++ sep :: rest) =
      (cur.reverse ++ a) :: pySplitGo sep m [] rest := by
  induction a with
  | nil => intro cur; simp [pySplitGo]
  | cons c arest ih =>
    intro cur
    have hc : ¬(c = sep) := fun h => ha (by simp [h])
    rw [List.cons_append, pySplitGo, if_neg hc, ih (fun h => ha (by simp [h]))]
    simp

/-! ## Lemmas: the constant-time comparison -/

theorem lor_eq_zero_iff (a b : Nat) : a ||| b = 0 ↔ a = 0 ∧ b = 0 := by
  constructor
  · intro h
    constructor <;> refine Nat.eq_of_testBit_eq fun i => ?_ <;>
    · have h2 := congrArg (fun x => Nat.testBit x i) h
      simp only [Nat.testBit_or, Nat.zero_testBit, Bool.or_eq_false_iff] at h2
      simp [h2.1, h2.2]
  · rintro ⟨rfl, rfl⟩; rfl

theorem consteq_fold_eq_zero (ps : List (Nat × Nat)) :
    ∀ i, (ps.foldl (fun acc p => acc ||| (p.1 ^^^ p.2)) i = 0 ↔
      i = 0 ∧ ∀ p ∈ ps, p.1 = p.2) := by
  induction ps with
  | nil => intro i; simp
  | cons p ps ih =>
    intro i
    rw [List.foldl_cons, ih, lor_eq_zero_iff, Nat.xor_eq_zero]
    constructor
    · rintro ⟨⟨hi, hp⟩, hall⟩
      exact ⟨hi, by simpa [hp] using hall⟩
    · rintro ⟨hi, hall⟩
      exact ⟨⟨hi, hall p (by simp)⟩, fun q hq => hall q (by simp [hq])⟩

theorem eq_of_zip_eq (a : List Nat) : ∀ b : List Nat, a.length = b.length →
    (∀ p ∈ a.zip b, p.1 = p.2) → a = b := by
  induction a with
  | nil => intro b hb _; cases b with
    | nil => rfl
    | cons x l => simp at hb
  | cons x l ih =>
    intro b hb hall
    cases b with
    | nil => simp at hb
    | cons y m =>
      have hx : x = y := hall (x, y) (by simp [List.zip_cons_cons])
      have : l = m := ih m (by simpa using hb)
        (fun p hp => hall p (by simp [List.zip_cons_cons, hp]))
      rw [hx, this]

theorem zip_self_fst_eq_snd (a : List Nat) : ∀ p ∈ a.zip a, p.1 = p.2 := by
  induction a with
  | nil => intro p hp; cases hp
  | cons x l ih =>
    intro p hp
    rw [List.zip_cons_cons] at hp
    rcases List.mem_cons.mp hp with rfl | hp2
    · rfl
    · exact ih p hp2

/-- The comparison primitive decides list equality. -/
theorem consteq_iff_eq (a b : Bytes) : _consteq a b = true ↔ a = b := by
  rw [_consteq, Bool.and_eq_true, beq_iff_eq, beq_iff_eq, consteq_fold_eq_zero]
  constructor
  · rintro ⟨hl, _, hall⟩
    exact eq_of_zip_eq a b hl hall
  · rintro rfl
    exact ⟨rfl, rfl, zip_self_fst_eq_snd a⟩

theorem consteq_self (a : Bytes) : _consteq a a = true := by
  rw [consteq_iff_eq]

theorem consteq_ne (a b : Bytes) (h : a ≠ b) : _consteq a b = false := by
  cases hc : _consteq a b with
  | false => rfl
  | true => exact absurd ((consteq_iff_eq a b).mp hc) h

theorem consteq_length_ne (a b : Bytes) (h : a.length ≠ b.length) : _consteq a b = false := by
  exact consteq_ne a b (fun hab => h (by rw [hab]))

/-- The number of fold steps `_consteq`'s accumulation performs. -/
def consteqSteps (a b : Bytes) : Nat :=
  ((a.zip b).foldl (fun (p : Nat × Nat) q => (p.1 + 1, p.2 ||| (q.1 ^^^ q.2))) (0, 0)).1

theorem consteq_fold_count (ps : List (Nat × Nat)) :
    ∀ k i, (ps.foldl (fun (p : Nat × Nat) q => (p.1 + 1, p.2 ||| (q.1 ^^^ q.2))) (k, i)).1 =
      k + ps.length := by
  induction ps with
  | nil => intro k i; simp
  | cons p ps ih => intro k i; rw [List.foldl_cons, ih]; simp; omega

/-- The traversal length of the comparison depends only on the buffer
lengths, never on where the buffers first differ. -/
theorem consteqSteps_eq_min (a b : Bytes) : consteqSteps a b = min a.length b.length := by
  rw [consteqSteps, consteq_fold_count]
  simp

/-! ## Lemmas: decimal representation and int() -/

theorem digitChar_toNat : ∀ d, d < 10 → (digitChar d).toNat = 48 + d := by decide

theorem digitChar_isDigit : ∀ d, isDigitC (digitChar d) = true := by
  intro d
  rcases d with _|_|_|_|_|_|_|_|_|d <;> rfl

theorem isDigitC_props (c : Char) (h : isDigitC c = true) :
    c ≠ '$' ∧ c ≠ ':' ∧ c ≠ '+' ∧ c ≠ '-' ∧ c ≠ '_' ∧ c ≠ '=' ∧
      isPySpace c = false ∧ c.toNat < 128 := by
  rw [isDigitC, Bool.and_eq_true, decide_eq_true_eq, decide_eq_true_eq] at h
  refine ⟨?_, ?_, ?_, ?_, ?_, ?_, ?_, ?_⟩
  · intro hEq; subst hEq; exact absurd h (by decide)
  · intro hEq; subst hEq; exact absurd h (by decide)
  · intro hEq; subst hEq; exact absurd h (by decide)
  · intro hEq; subst hEq; exact absurd h (by decide)
  · intro hEq; subst hEq; exact absurd h (by decide)
  · intro hEq; subst hEq; exact absurd h (by decide)
  · cases hsp : isPySpace c with
    | false => rfl
    | true =>
      simp only [isPySpace, Bool.or_eq_true, decide_eq_true_eq] at hsp
      rcases hsp with ((((rfl | rfl) | rfl) | rfl) | rfl) | rfl <;> exact absurd h (by decide)
  · omega

theorem natReprAux_eq (fuel : Nat) : ∀ n acc, 1 ≤ n → n < 10 ^ fuel →
    natReprAux fuel n acc = ((Nat.digits 10 n).map digitChar).reverse ++ acc := by
  induction fuel with
  | zero => intro n acc h1 h2; simp at h2; omega
  | succ f ih =>
    intro n acc h1 h2
    rw [natReprAux]
    by_cases h10 : n < 10
    · rw [if_pos h10, Nat.digits_def' (by norm_num : (1:ℕ) < 10) (by omega)]
      have hd : n / 10 = 0 := by omega
      rw [hd]
      simp [Nat.mod_eq_of_lt h10]
    · rw [if_neg h10]
      have hdd : Nat.digits 10 n = n % 10 :: Nat.digits 10 (n / 10) :=
        Nat.digits_def' (by norm_num : (1:ℕ) < 10) (by omega)
      have h2d : n / 10 < 10 ^ f := by
        rw [pow_succ] at h2
        omega
      rw [hdd, ih (n / 10) _ (by omega) h2d]
      simp

theorem natRepr_eq (n : Nat) (h : 1 ≤ n) :
    natRepr n = ((Nat.digits 10 n).map digitChar).reverse := by
  rw [natRepr, natReprAux_eq (n + 1) n [] h, List.append_nil]
  calc n < 2 ^ n := Nat.lt_two_pow n
    _ ≤ 10 ^ n := Nat.pow_le_pow_left (by norm_num) n
    _ ≤ 10 ^ (n + 1) := Nat.pow_le_pow_right (by norm_num) (by omega)

theorem natRepr_digits (n : Nat) : ∀ c ∈ natRepr n, isDigitC c = true := by
  by_cases h : 1 ≤ n
  · rw [natRepr_eq n h]
    intro c hc
    rw [List.mem_reverse, List.mem_map] at hc
    obtain ⟨d, _, rfl⟩ := hc
    exact digitChar_isDigit d
  · have : n = 0 := by omega
    subst this
    intro c hc
    rcases List.mem_singleton.mp hc with rfl
    rfl

theorem natRepr_ne_nil (n : Nat) : natRepr n ≠ [] := by
  by_cases h : 1 ≤ n
  · rw [natRepr_eq n h]
    simp [Nat.digits_ne_nil_iff_ne_zero.mpr (by omega : n ≠ 0)]
  · have : n = 0 := by omega
    subst this
    simp [natRepr, natReprAux]

theorem digitsVal_digits (ds : List Nat) (hds : ∀ d ∈ ds, d < 10) :
    digitsVal ((ds.map digitChar).reverse) = Nat.ofDigits 10 ds := by
  induction ds with
  | nil => rfl
  | cons d ds ih =>
    rw [List.map_cons, List.reverse_cons, digitsVal, List.foldl_append, ← digitsVal,
      ih (fun x hx => hds x (by simp [hx]))]
    have hd : (digitChar d).toNat - 48 = d := by
      rw [digitChar_toNat d (hds d (by simp))]
      omega
    simp [digitsVal, hd, Nat.ofDigits_cons]
    push_cast
    ring

theorem natRepr_val (n : Nat) : digitsVal (natRepr n) = n := by
  by_cases h : 1 ≤ n
  · rw [natRepr_eq n h, digitsVal_digits _ (fun d hd => Nat.digits_lt_base (by norm_num) hd)]
    exact_mod_cast Nat.ofDigits_digits 10 n
  · have : n = 0 := by omega
    subst this
    rfl

theorem udScan_all_digits (l : List Char) (h : ∀ c ∈ l, isDigitC c = true) :
    udScan false l = true := by
  induction l with
  | nil => rfl
  | cons c rest ih =>
    rw [udScan]
    have hc := h c (by simp)
    rw [if_neg (isDigitC_props c hc).2.2.2.2.1, hc]
    simp [ih (fun d hd => h d (by simp [hd]))]

theorem validDigits_all (l : List Char) (hne : l ≠ []) (h : ∀ c ∈ l, isDigitC c = true) :
    validDigits l = true := by
  cases l with
  | nil => exact absurd rfl hne
  | cons c rest =>
    rw [validDigits, h c (by simp)]
    simp [udScan_all_digits rest (fun d hd => h d (by simp [hd]))]

theorem filter_no_underscore (l : List Char) (h : ∀ c ∈ l, isDigitC c = true) :
    l.filter (fun c => c ≠ '_') = l := by
  rw [List.filter_eq_self]
  intro c hc
  simp [(isDigitC_props c (h c hc)).2.2.2.2.1]

/-- Parsing back the decimal representation of a natural number. -/
theorem pyInt_natRepr (n : Nat) : pyInt (natRepr n) = .ok (n : Int) := by
  have hdig := natRepr_digits n
  have hstrip : pyStripL (natRepr n) = natRepr n :=
    pyStripL_eq_self _ (fun c hc => (isDigitC_props c (hdig c hc)).2.2.2.2.2.2.1)
  rw [pyInt, hstrip]
  have hval : validDigits (natRepr n) = true := validDigits_all _ (natRepr_ne_nil n) hdig
  have hfil : (natRepr n).filter (fun c => c ≠ '_') = natRepr n := filter_no_underscore _ hdig
  split
  · rename_i r hr
    exact absurd (hdig '+' (by rw [hr]; simp)) (by decide)
  · rename_i r hr
    exact absurd (hdig '-' (by rw [hr]; simp)) (by decide)
  · rw [hval, if_pos rfl, hfil, natRepr_val]

/-! ## Lemmas: base64 -/

theorem b64DecVal_enc : ∀ v, v < 64 → b64DecVal (b64EncChar v) = some v := by decide

theorem b64EncChar_props : ∀ v, v < 64 →
    b64EncChar v ≠ '=' ∧ b64EncChar v ≠ '$' ∧ b64EncChar v ≠ ':' ∧
      isPySpace (b64EncChar v) = false ∧ (b64EncChar v).toNat < 128 ∧
      fromUrlChar (toUrlChar (b64EncChar v)) = b64EncChar v ∧
      toUrlChar (b64EncChar v) ≠ '=' ∧ toUrlChar (b64EncChar v) ≠ '$' ∧
      toUrlChar (b64EncChar v) ≠ ':' ∧ isPySpace (toUrlChar (b64EncChar v)) = false ∧
      (toUrlChar (b64EncChar v)).toNat < 128 := by decide

/-- Every character of a base64 encoding is either `=` or an alphabet
character with a value below 64. -/
theorem encGroups_mem (b : Bytes) (hb : ∀ x ∈ b, x < 256) :
    ∀ c ∈ b64EncodeGroups b, c = '=' ∨ ∃ v, v < 64 ∧ c = b64EncChar v := by
  match b with
  | [] => intro c hc; simp [b64EncodeGroups] at hc
  | [b0] =>
    intro c hc
    have h0 : b0 < 256 := hb b0 (by simp)
    rw [b64EncodeGroups] at hc
    simp only [List.mem_cons, List.not_mem_nil, or_false] at hc
    rcases hc with rfl | rfl | rfl | rfl
    · exact Or.inr ⟨b0 / 4, by omega, rfl⟩
    · exact Or.inr ⟨b0 % 4 * 16, by omega, rfl⟩
    · exact Or.inl rfl
    · exact Or.inl rfl
  | [b0, b1] =>
    intro c hc
    have h0 : b0 < 256 := hb b0 (by simp)
    have h1 : b1 < 256 := hb b1 (by simp)
    rw [b64EncodeGroups] at hc
    simp only [List.mem_cons, List.not_mem_nil, or_false] at hc
    rcases hc with rfl | rfl | rfl | rfl
    · exact Or.inr ⟨b0 / 4, by omega, rfl⟩
    · exact Or.inr ⟨b0 % 4 * 16 + b1 / 16, by omega, rfl⟩
    · exact Or.inr ⟨b1 % 16 * 4, by omega, rfl⟩
    · exact Or.inl rfl
  | b0 :: b1 :: b2 :: b3 :: rest =>
    intro c hc
    have h0 : b0 < 256 := hb b0 (by simp)
    have h1 : b1 < 256 := hb b1 (by simp)
    have h2 : b2 < 256 := hb b2 (by simp)
    rw [b64EncodeGroups] at hc
    simp only [List.mem_cons] at hc
    rcases hc with rfl | rfl | rfl | rfl | hc
    · exact Or.inr ⟨b0 / 4, by omega, rfl⟩
    · exact Or.inr ⟨b0 % 4 * 16 + b1 / 16, by omega, rfl⟩
    · exact Or.inr ⟨b1 % 16 * 4 + b2 / 64, by omega, rfl⟩
    · exact Or.inr ⟨b2 % 64, by omega, rfl⟩
    · exact encGroups_mem (b3 :: rest) (fun x hx => hb x (by simp at hx ⊢; tauto)) c hc
  | [b0, b1, b2] =>
    intro c hc
    have h0 : b0 < 256 := hb b0 (by simp)
    have h1 : b1 < 256 := hb b1 (by simp)
    have h2 : b2 < 256 := hb b2 (by simp)
    rw [b64EncodeGroups] at hc
    simp only [List.mem_cons] at hc
    rcases hc with rfl | rfl | rfl | rfl | hc
    · exact Or.inr ⟨b0 / 4, by omega, rfl⟩
    · exact Or.inr ⟨b0 % 4 * 16 + b1 / 16, by omega, rfl⟩
    · exact Or.inr ⟨b1 % 16 * 4 + b2 / 64, by omega, rfl⟩
    · exact Or.inr ⟨b2 % 64, by omega, rfl⟩
    · simp [b64EncodeGroups] at hc

/-- The single-character steps of the decoder on a data character. -/
theorem a2bGo_data0 (c : Char) (v : Nat) (h : b64DecVal c = some v) (hne : ¬ c = '=')
    (rest : List Char) (left pads : Nat) (acc : Bytes) :
    a2bGo (c :: rest) 0 left pads acc = a2bGo rest 1 v 0 acc := by
  rw [a2bGo, if_neg hne, h]

theorem a2bGo_data1 (c : Char) (v : Nat) (h : b64DecVal c = some v) (hne : ¬ c = '=')
    (rest : List Char) (left pads : Nat) (acc : Bytes) :
    a2bGo (c :: rest) 1 left pads acc = a2bGo rest 2 (v % 16) 0 ((left * 4 + v / 16) :: acc) := by
  rw [a2bGo, if_neg hne, h]

theorem a2bGo_data2 (c : Char) (v : Nat) (h : b64DecVal c = some v) (hne : ¬ c = '=')
    (rest : List Char) (left pads : Nat) (acc : Bytes) :
    a2bGo (c :: rest) 2 left pads acc = a2bGo rest 3 (v % 4) 0 ((left * 16 + v / 4) :: acc) := by
  rw [a2bGo, if_neg hne, h]

theorem a2bGo_data3 (c : Char) (v : Nat) (h : b64DecVal c = some v) (hne : ¬ c = '=')
    (rest : List Char) (left pads : Nat) (acc : Bytes) :
    a2bGo (c :: rest) 3 left pads acc = a2bGo rest 0 0 0 ((left * 64 + v) :: acc) := by
  rw [a2bGo, if_neg hne, h]

theorem a2bGo_pad_skip (rest : List Char) (quad left pads : Nat) (acc : Bytes)
    (h : ¬(2 ≤ quad ∧ 4 ≤ quad + (pads + 1))) :
    a2bGo ('=' :: rest) quad left pads acc = a2bGo rest quad left (pads + 1) acc := by
  rw [a2bGo, if_pos rfl, if_neg h]

theorem a2bGo_pad_done (rest : List Char) (quad left pads : Nat) (acc : Bytes)
    (h : 2 ≤ quad ∧ 4 ≤ quad + (pads + 1)) :
    a2bGo ('=' :: rest) quad left pads acc = .ok acc.reverse := by
  rw [a2bGo, if_pos rfl, if_pos h]

theorem a2bGo_two_pads_quad0 (left pads : Nat) (acc : Bytes) :
    a2bGo ['=', '='] 0 left pads acc = .ok acc.reverse := by
  rw [a2bGo_pad_skip _ _ _ _ _ (by omega), a2bGo_pad_skip _ _ _ _ _ (by omega)]
  rfl

/-- Processing one complete 3-byte group of an encoding. -/
theorem a2bGo_group (b0 b1 b2 : Nat) (h0 : b0 < 256) (h1 : b1 < 256) (h2 : b2 < 256)
    (tail : List Char) (left pads : Nat) (acc : Bytes) :
    a2bGo (b64EncChar (b0 / 4) :: b64EncChar (b0 % 4 * 16 + b1 / 16) ::
        b64EncChar (b1 % 16 * 4 + b2 / 64) :: b64EncChar (b2 % 64) :: tail) 0 left pads acc =
      a2bGo tail 0 0 0 (b2 :: b1 :: b0 :: acc) := by
  have hv1 : b0 / 4 < 64 := by omega
  have hv2 : b0 % 4 * 16 + b1 / 16 < 64 := by omega
  have hv3 : b1 % 16 * 4 + b2 / 64 < 64 := by omega
  have hv4 : b2 % 64 < 64 := by omega
  rw [a2bGo_data0 _ _ (b64DecVal_enc _ hv1) (b64EncChar_props _ hv1).1,
    a2bGo_data1 _ _ (b64DecVal_enc _ hv2) (b64EncChar_props _ hv2).1,
    a2bGo_data2 _ _ (b64DecVal_enc _ hv3) (b64EncChar_props _ hv3).1,
    a2bGo_data3 _ _ (b64DecVal_enc _ hv4) (b64EncChar_props _ hv4).1]
  have e1 : b0 / 4 * 4 + (b0 % 4 * 16 + b1 / 16) / 16 = b0 := by omega
  have e2 : (b0 % 4 * 16 + b1 / 16) % 16 * 16 + (b1 % 16 * 4 + b2 / 64) / 4 = b1 := by omega
  have e3 : (b1 % 16 * 4 + b2 / 64) % 4 * 64 + b2 % 64 = b2 := by omega
  rw [e1, e2, e3]

/-- Decoding an unstripped standard encoding recovers the bytes. -/
theorem a2bGo_enc (b : Bytes) (hb : ∀ x ∈ b, x < 256) :
    ∀ acc, a2bGo (b64EncodeGroups b) 0 0 0 acc = .ok (acc.reverse ++ b) := by
  match b with
  | [] => intro acc; simp [b64EncodeGroups, a2bGo]
  | [b0] =>
    intro acc
    have h0 : b0 < 256 := hb b0 (by simp)
    have hv1 : b0 / 4 < 64 := by omega
    have hv2 : b0 % 4 * 16 < 64 := by omega
    rw [b64EncodeGroups,
      a2bGo_data0 _ _ (b64DecVal_enc _ hv1) (b64EncChar_props _ hv1).1,
      a2bGo_data1 _ _ (b64DecVal_enc _ hv2) (b64EncChar_props _ hv2).1,
      a2bGo_pad_skip _ _ _ _ _ (by omega),
      a2bGo_pad_done _ _ _ _ _ (by omega)]
    have e1 : b0 / 4 * 4 + b0 % 4 * 16 / 16 = b0 := by omega
    rw [e1]
    simp
  | [b0, b1] =>
    intro acc
    have h0 : b0 < 256 := hb b0 (by simp)
    have h1 : b1 < 256 := hb b1 (by simp)
    have hv1 : b0 / 4 < 64 := by omega
    have hv2 : b0 % 4 * 16 + b1 / 16 < 64 := by omega
    have hv3 : b1 % 16 * 4 < 64 := by omega
    rw [b64EncodeGroups,
      a2bGo_data0 _ _ (b64DecVal_enc _ hv1) (b64EncChar_props _ hv1).1,
      a2bGo_data1 _ _ (b64DecVal_enc _ hv2) (b64EncChar_props _ hv2).1,
      a2bGo_data2 _ _ (b64DecVal_enc _ hv3) (b64EncChar_props _ hv3).1,
      a2bGo_pad_done _ _ _ _ _ (by omega)]
    have e1 : b0 / 4 * 4 + (b0 % 4 * 16 + b1 / 16) / 16 = b0 := by omega
    have e2 : (b0 % 4 * 16 + b1 / 16) % 16 * 16 + b1 % 16 * 4 / 4 = b1 := by omega
    rw [e1, e2]
    simp
  | b0 :: b1 :: b2 :: rest =>
    intro acc
    have h0 : b0 < 256 := hb b0 (by simp)
    have h1 : b1 < 256 := hb b1 (by simp)
    have h2 : b2 < 256 := hb b2 (by simp)
    rw [b64EncodeGroups, a2bGo_group b0 b1 b2 h0 h1 h2,
      a2bGo_enc rest (fun x hx => hb x (by simp [hx]))]
    simp

theorem dropWhile_eq_self_all {p : Char → Bool} (l : List Char) (h : ∀ c ∈ l, p c = false) :
    l.dropWhile p = l := by
  cases l with
  | nil => rfl
  | cons c rest => rw [List.dropWhile_cons, h c (by simp)]; simp

theorem dropWhile_congr {p q : Char → Bool} (l : List Char) (h : ∀ c ∈ l, p c = q c) :
    l.dropWhile p = l.dropWhile q := by
  induction l with
  | nil => rfl
  | cons c rest ih =>
    rw [List.dropWhile_cons, List.dropWhile_cons, h c (by simp)]
    split
    · exact ih (fun d hd => h d (by simp [hd]))
    · rfl

theorem rstripEq_no_eq (l : List Char) (h : ∀ c ∈ l, ¬ c = '=') : rstripEq l = l := by
  rw [rstripEq, dropWhile_eq_self_all _ (fun c hc => by
    simp [h c (List.mem_reverse.mp hc)]), List.reverse_reverse]

theorem rstripEq_ne_nil_of_head (c : Char) (l : List Char) (hc : ¬ c = '=') :
    rstripEq (c :: l) ≠ [] := by
  rw [rstripEq]
  intro h
  rw [List.reverse_eq_nil_iff, List.dropWhile_eq_nil_iff] at h
  have := h c (by simp)
  simp [hc] at this

theorem rstripEq_append_left (x y : List Char) (hy : rstripEq y ≠ []) :
    rstripEq (x ++ y) = x ++ rstripEq y := by
  rw [rstripEq, List.reverse_append, List.dropWhile_append]
  have hyd : (y.reverse.dropWhile (fun c => c = '=')).isEmpty = false := by
    cases hEq : y.reverse.dropWhile (fun c => c = '=') with
    | nil => exact absurd (by rw [rstripEq, hEq]; rfl) hy
    | cons a l => rfl
  rw [hyd]
  simp only [if_neg Bool.false_ne_true, List.reverse_append, List.reverse_reverse]
  rw [rstripEq]

theorem rstrip_four_2 (e1 e2 : Char) (h2 : ¬ e2 = '=') :
    rstripEq [e1, e2, '=', '='] = [e1, e2] := by
  simp [rstripEq, List.dropWhile_cons, h2]

theorem rstrip_four_1 (e1 e2 e3 : Char) (h3 : ¬ e3 = '=') :
    rstripEq [e1, e2, e3, '='] = [e1, e2, e3] := by
  simp [rstripEq, List.dropWhile_cons, h3]

theorem encGroups_rstrip_ne_nil (b : Bytes) (hb : ∀ x ∈ b, x < 256) (hne : b ≠ []) :
    rstripEq (b64EncodeGroups b) ≠ [] := by
  match b with
  | [] => exact absurd rfl hne
  | [b0] =>
    have h0 : b0 < 256 := hb b0 (by simp)
    rw [b64EncodeGroups]
    exact rstripEq_ne_nil_of_head _ _ (b64EncChar_props _ (by omega : b0 / 4 < 64)).1
  | [b0, b1] =>
    have h0 : b0 < 256 := hb b0 (by simp)
    rw [b64EncodeGroups]
    exact rstripEq_ne_nil_of_head _ _ (b64EncChar_props _ (by omega : b0 / 4 < 64)).1
  | b0 :: b1 :: b2 :: rest =>
    have h0 : b0 < 256 := hb b0 (by simp)
    rw [b64EncodeGroups]
    exact rstripEq_ne_nil_of_head _ _ (b64EncChar_props _ (by omega : b0 / 4 < 64)).1

/-- Decoding a padding-stripped standard encoding with `"=="` appended
recovers the bytes (this is the module's `b64decode(x + "==")` pattern). -/
theorem a2bGo_enc_stripped (b : Bytes) (hb : ∀ x ∈ b, x < 256) :
    ∀ acc, a2bGo (rstripEq (b64EncodeGroups b) ++ ['=', '=']) 0 0 0 acc =
      .ok (acc.reverse ++ b) := by
  match b with
  | [] =>
    intro acc
    show a2bGo (rstripEq [] ++ ['=', '=']) 0 0 0 acc = _
    rw [show rstripEq [] = [] from rfl, List.nil_append, a2bGo_two_pads_quad0]
    simp
  | [b0] =>
    intro acc
    have h0 : b0 < 256 := hb b0 (by simp)
    have hv1 : b0 / 4 < 64 := by omega
    have hv2 : b0 % 4 * 16 < 64 := by omega
    rw [b64EncodeGroups, rstrip_four_2 _ _ (b64EncChar_props _ hv2).1]
    rw [List.cons_append, List.cons_append, List.nil_append,
      a2bGo_data0 _ _ (b64DecVal_enc _ hv1) (b64EncChar_props _ hv1).1,
      a2bGo_data1 _ _ (b64DecVal_enc _ hv2) (b64EncChar_props _ hv2).1,
      a2bGo_pad_skip _ _ _ _ _ (by omega),
      a2bGo_pad_done _ _ _ _ _ (by omega)]
    have e1 : b0 / 4 * 4 + b0 % 4 * 16 / 16 = b0 := by omega
    rw [e1]
    simp
  | [b0, b1] =>
    intro acc
    have h0 : b0 < 256 := hb b0 (by simp)
    have h1 : b1 < 256 := hb b1 (by simp)
    have hv1 : b0 / 4 < 64 := by omega
    have hv2 : b0 % 4 * 16 + b1 / 16 < 64 := by omega
    have hv3 : b1 % 16 * 4 < 64 := by omega
    rw [b64EncodeGroups, rstrip_four_1 _ _ _ (b64EncChar_props _ hv3).1]
    rw [List.cons_append, List.cons_append, List.cons_append, List.nil_append,
      a2bGo_data0 _ _ (b64DecVal_enc _ hv1) (b64EncChar_props _ hv1).1,
      a2bGo_data1 _ _ (b64DecVal_enc _ hv2) (b64EncChar_props _ hv2).1,
      a2bGo_data2 _ _ (b64DecVal_enc _ hv3) (b64EncChar_props _ hv3).1,
      a2bGo_pad_done _ _ _ _ _ (by omega)]
    have e1 : b0 / 4 * 4 + (b0 % 4 * 16 + b1 / 16) / 16 = b0 := by omega
    have e2 : (b0 % 4 * 16 + b1 / 16) % 16 * 16 + b1 % 16 * 4 / 4 = b1 := by omega
    rw [e1, e2]
    simp
  | b0 :: b1 :: b2 :: rest =>
    intro acc
    have h0 : b0 < 256 := hb b0 (by simp)
    have h1 : b1 < 256 := hb b1 (by simp)
    have h2 : b2 < 256 := hb b2 (by simp)
    have hbr : ∀ x ∈ rest, x < 256 := fun x hx => hb x (by simp [hx])
    by_cases hrest : rest = []
    · subst hrest
      have hv1 : b0 / 4 < 64 := by omega
      have hv2 : b0 % 4 * 16 + b1 / 16 < 64 := by omega
      have hv3 : b1 % 16 * 4 + b2 / 64 < 64 := by omega
      have hv4 : b2 % 64 < 64 := by omega
      rw [b64EncodeGroups]
      rw [show b64EncodeGroups [] = [] from rfl]
      rw [rstripEq_no_eq _ (by
        intro c hc
        simp only [List.mem_cons, List.not_mem_nil, or_false] at hc
        rcases hc with rfl | rfl | rfl | rfl
        · exact (b64EncChar_props _ hv1).1
        · exact (b64EncChar_props _ hv2).1
        · exact (b64EncChar_props _ hv3).1
        · exact (b64EncChar_props _ hv4).1)]
      rw [List.cons_append, List.cons_append, List.cons_append, List.cons_append,
        List.nil_append, a2bGo_group b0 b1 b2 h0 h1 h2, a2bGo_two_pads_quad0]
      simp
    · rw [b64EncodeGroups,
        show b64EncChar (b0 / 4) :: b64EncChar (b0 % 4 * 16 + b1 / 16) ::
          b64EncChar (b1 % 16 * 4 + b2 / 64) :: b64EncChar (b2 % 64) ::
            b64EncodeGroups rest =
          [b64EncChar (b0 / 4), b64EncChar (b0 % 4 * 16 + b1 / 16),
            b64EncChar (b1 % 16 * 4 + b2 / 64), b64EncChar (b2 % 64)] ++
            b64EncodeGroups rest from rfl,
        rstripEq_append_left _ _ (encGroups_rstrip_ne_nil rest hbr hrest),
        List.append_assoc]
      rw [List.cons_append, List.cons_append, List.cons_append, List.cons_append,
        List.nil_append, a2bGo_group b0 b1 b2 h0 h1 h2,
        a2bGo_enc_stripped rest hbr]
      simp

theorem rstripEq_subset (l : List Char) (c : Char) (hc : c ∈ rstripEq l) : c ∈ l := by
  rw [rstripEq, List.mem_reverse] at hc
  exact List.mem_reverse.mp ((List.dropWhile_sublist _).subset hc)

/-- Legacy round trip: `b64decode(b64encode(x))` recovers `x`. -/
theorem b64decode_encode (b : Bytes) (hb : ∀ x ∈ b, x < 256) :
    b64decode (b64encode b) = .ok b := by
  rw [b64decode, b64encode]
  have hall : (b64EncodeGroups b).all (fun c => c.toNat < 128) = true := by
    rw [List.all_eq_true]
    intro c hc
    rcases encGroups_mem b hb c hc with rfl | ⟨v, hv, rfl⟩
    · decide
    · simpa using (b64EncChar_props v hv).2.2.2.2.1
  rw [if_pos hall]
  rw [a2bGo_enc b hb []]
  rfl

theorem rstripEq_map_toUrl (b : Bytes) (hb : ∀ x ∈ b, x < 256) :
    rstripEq ((b64EncodeGroups b).map toUrlChar) =
      (rstripEq (b64EncodeGroups b)).map toUrlChar := by
  rw [rstripEq, rstripEq, ← List.map_reverse, List.dropWhile_map, ← List.map_reverse]
  congr 2
  apply dropWhile_congr
  intro c hc
  simp only [Function.comp]
  rcases encGroups_mem b hb c (List.mem_reverse.mp hc) with rfl | ⟨v, hv, rfl⟩
  · rfl
  · have h1 := (b64EncChar_props v hv).1
    have h2 := (b64EncChar_props v hv).2.2.2.2.2.2.1
    simp [h1, h2]

theorem map_fromUrl_of_enc (l : List Char)
    (h : ∀ c ∈ l, c = '=' ∨ ∃ v, v < 64 ∧ c = b64EncChar v) :
    (l.map toUrlChar).map fromUrlChar = l := by
  rw [List.map_map]
  have : ∀ c ∈ l, (fromUrlChar ∘ toUrlChar) c = c := by
    intro c hc
    rcases h c hc with rfl | ⟨v, hv, rfl⟩
    · rfl
    · exact (b64EncChar_props v hv).2.2.2.2.2.1
  calc l.map (fromUrlChar ∘ toUrlChar) = l.map id := List.map_congr_left this
    _ = l := List.map_id l

/-- The module's url-safe round trip:
`urlsafe_b64decode(urlsafe_b64encode(x).rstrip("=") + "==")` recovers `x`. -/
theorem urlsafe_stripped_decode (b : Bytes) (hb : ∀ x ∈ b, x < 256) :
    urlsafeB64decode (rstripEq (urlsafeB64encode b) ++ "==".data) = .ok b := by
  rw [urlsafeB64decode, urlsafeB64encode, rstripEq_map_toUrl b hb,
    show "==".data = ['=', '='] from rfl, List.map_append,
    map_fromUrl_of_enc _ (fun c hc => encGroups_mem b hb c (rstripEq_subset _ _ hc)),
    show ['=', '='].map fromUrlChar = ['=', '='] from rfl]
  rw [b64decode]
  have hall : (rstripEq (b64EncodeGroups b) ++ ['=', '=']).all
      (fun c => c.toNat < 128) = true := by
    rw [List.all_eq_true]
    intro c hc
    rw [List.mem_append] at hc
    rcases hc with hc | hc
    · rcases encGroups_mem b hb c (rstripEq_subset _ _ hc) with rfl | ⟨v, hv, rfl⟩
      · decide
      · simpa using (b64EncChar_props v hv).2.2.2.2.1
    · simp only [List.mem_cons, List.not_mem_nil, or_false] at hc
      rcases hc with rfl | rfl <;> decide
  rw [if_pos hall, a2bGo_enc_stripped b hb []]
  rfl

/-- Character-class facts for whole encodings (with or without `=`):
no `$`, no `:`, no whitespace, so prefix checks fail and stripping is the
identity. -/
theorem encGroups_chars (b : Bytes) (hb : ∀ x ∈ b, x < 256) :
    ∀ c ∈ b64EncodeGroups b, c ≠ '$' ∧ c ≠ ':' ∧ isPySpace c = false := by
  intro c hc
  rcases encGroups_mem b hb c hc with rfl | ⟨v, hv, rfl⟩
  · refine ⟨by decide, by decide, by decide⟩
  · exact ⟨(b64EncChar_props v hv).2.1, (b64EncChar_props v hv).2.2.1,
      (b64EncChar_props v hv).2.2.2.1⟩

theorem urlsafe_chars (b : Bytes) (hb : ∀ x ∈ b, x < 256) :
    ∀ c ∈ (b64EncodeGroups b).map toUrlChar, c ≠ '$' ∧ c ≠ ':' ∧ isPySpace c = false := by
  intro c hc
  rw [List.mem_map] at hc
  obtain ⟨d, hd, rfl⟩ := hc
  rcases encGroups_mem b hb d hd with rfl | ⟨v, hv, rfl⟩
  · refine ⟨by decide, by decide, by decide⟩
  · exact ⟨(b64EncChar_props v hv).2.2.2.2.2.2.2.1,
      (b64EncChar_props v hv).2.2.2.2.2.2.2.2.1,
      (b64EncChar_props v hv).2.2.2.2.2.2.2.2.2.1⟩

/-- A prefix containing `$` cannot match a string without `$`; same for
`:`. -/
theorem not_prefix_of_missing (p l : List Char) (c : Char) (hcp : c ∈ p) (hcl : c ∉ l) :
    p.isPrefixOf l = false := by
  cases hpre : p.isPrefixOf l with
  | false => rfl
  | true =>
    have : p <+: l := List.isPrefixOf_iff_prefix.mp hpre
    exact absurd (this.sublist.subset hcp) hcl

/-! ## Lemmas: parsing the built credential strings -/

theorem pySplitGo_zero (sep : Char) (l : List Char) :
    ∀ cur, pySplitGo sep 0 cur l = [cur.reverse ++ l] := by
  induction l with
  | nil => intro cur; simp [pySplitGo]
  | cons c rest ih =>
    intro cur
    rw [pySplitGo]
    by_cases hc : c = sep
    · rw [if_pos hc]
    · rw [if_neg hc, ih]
      simp

theorem isPrefixOf_append (p t : List Char) : p.isPrefixOf (p ++ t) = true := by
  rw [List.isPrefixOf_iff_prefix]
  exact ⟨t, rfl⟩

/-- Variants of the splitting lemmas with fuel given as `n` with `1 ≤ n`,
avoiding numeral/successor pattern mismatches. -/
theorem pySplitGo_sep_cons2 (sep : Char) (a : List Char) (ha : sep ∉ a) (n : Nat)
    (hn : 1 ≤ n) (rest : List Char) :
    pySplitGo sep n [] (a ++ sep :: rest) = a :: pySplitGo sep (n - 1) [] rest := by
  obtain ⟨m, rfl⟩ : ∃ m, n = m + 1 := ⟨n - 1, by omega⟩
  simpa using pySplitGo_sep_cons sep a ha m rest []

theorem pySplitGo_sep_head (sep : Char) (n : Nat) (hn : 1 ≤ n) (rest : List Char) :
    pySplitGo sep n [] (sep :: rest) = [] :: pySplitGo sep (n - 1) [] rest := by
  obtain ⟨m, rfl⟩ : ∃ m, n = m + 1 := ⟨n - 1, by omega⟩
  rw [pySplitGo, if_pos rfl]
  simp

/-- Splitting a three-field `$`-separated credential after a `$`-free
prefix field (the canonical format's shape). -/
theorem pySplit_canonical (p13 f1 f2 f3 : List Char) (hp : '$' ∉ p13) (h1 : '$' ∉ f1)
    (h2 : '$' ∉ f2) (h3 : '$' ∉ f3) :
    pySplit '$' (some 3) (p13 ++ '$' :: (f1 ++ '$' :: (f2 ++ '$' :: f3))) =
      [p13, f1, f2, f3] := by
  rw [pySplit]
  rw [pySplitGo_sep_cons2 '$' p13 hp 3 (by norm_num)]
  rw [pySplitGo_sep_cons2 '$' f1 h1 (3 - 1) (by norm_num)]
  rw [pySplitGo_sep_cons2 '$' f2 h2 (3 - 1 - 1) (by norm_num)]
  rw [pySplitGo_no_sep '$' f3 h3]
  simp

/-- Splitting the modular-crypt shape: leading `$`, then four fields. -/
theorem pySplit_modular (p13 f1 f2 f3 : List Char) (hp : '$' ∉ p13) (h1 : '$' ∉ f1)
    (h2 : '$' ∉ f2) (h3 : '$' ∉ f3) :
    pySplit '$' (some 4) ('$' :: (p13 ++ '$' :: (f1 ++ '$' :: (f2 ++ '$' :: f3)))) =
      [[], p13, f1, f2, f3] := by
  rw [pySplit]
  rw [pySplitGo_sep_head '$' 4 (by norm_num)]
  rw [pySplitGo_sep_cons2 '$' p13 hp (4 - 1) (by norm_num)]
  rw [pySplitGo_sep_cons2 '$' f1 h1 (4 - 1 - 1) (by norm_num)]
  rw [pySplitGo_sep_cons2 '$' f2 h2 (4 - 1 - 1 - 1) (by norm_num)]
  rw [pySplitGo_no_sep '$' f3 h3]
  simp

/-- Splitting the alternate format's shape on `:` into its three parts. -/
theorem pySplit_alternate (p1 p2 rest : List Char) (hp1 : ':' ∉ p1) (hp2 : ':' ∉ p2) :
    pySplit ':' (some 2) (p1 ++ ':' :: (p2 ++ ':' :: rest)) = [p1, p2, rest] := by
  rw [pySplit]
  rw [pySplitGo_sep_cons2 ':' p1 hp1 2 (by norm_num)]
  rw [pySplitGo_sep_cons2 ':' p2 hp2 (2 - 1) (by norm_num)]
  rw [pySplitGo_zero]
  simp

/-- Splitting the alternate format remainder on `$` (no maxsplit). -/
theorem pySplit_alternate_fields (f1 f2 f3 : List Char) (h1 : '$' ∉ f1) (h2 : '$' ∉ f2)
    (h3 : '$' ∉ f3) :
    pySplit '$' none (f1 ++ '$' :: (f2 ++ '$' :: f3)) = [f1, f2, f3] := by
  rw [pySplit]
  rw [pySplitGo_sep_cons2 '$' f1 h1 _ (by simp; omega)]
  rw [pySplitGo_sep_cons2 '$' f2 h2 _ (by simp; omega)]
  rw [pySplitGo_no_sep '$' f3 h3]
  simp

/-! ## Lemmas: evaluating the branches on well-formed credentials -/

theorem pbkdf2CallStr_ok (prf : Prf) (password : String) (salt : Bytes) (n : Nat)
    (hn : 1 ≤ n) :
    pbkdf2CallStr prf password salt (n : Int) = .ok (prf (utf8Encode password) salt n) := by
  rw [pbkdf2CallStr, if_pos (by exact_mod_cast hn)]
  simp [_pbkdf2_sha256]

theorem parseCanonical_fields (prf : Prf) (password : String) (p13 f1 f2 f3 : List Char)
    (hp : '$' ∉ p13) (h1 : '$' ∉ f1) (h2 : '$' ∉ f2) (h3 : '$' ∉ f3) :
    parseCanonical prf password (p13 ++ '$' :: (f1 ++ '$' :: (f2 ++ '$' :: f3))) = (do
      let iters ← pyInt f1
      let salt ← urlsafeB64decode (f2 ++ "==".data)
      let want ← urlsafeB64decode (f3 ++ "==".data)
      let got ← pbkdf2CallStr prf password salt iters
      pure (_consteq got want)) := by
  rw [parseCanonical, pySplit_canonical p13 f1 f2 f3 hp h1 h2 h3]

theorem parseModular_fields (prf : Prf) (password : String) (p13 f1 f2 f3 : List Char)
    (hp : '$' ∉ p13) (h1 : '$' ∉ f1) (h2 : '$' ∉ f2) (h3 : '$' ∉ f3) :
    parseModular prf password ('$' :: (p13 ++ '$' :: (f1 ++ '$' :: (f2 ++ '$' :: f3)))) = (do
      let iters ← pyInt f1
      let salt ← urlsafeB64decode (f2 ++ "==".data)
      let want ← urlsafeB64decode (f3 ++ "==".data)
      let got ← pbkdf2CallStr prf password salt iters
      pure (_consteq got want)) := by
  rw [parseModular, pySplit_modular p13 f1 f2 f3 hp h1 h2 h3]

theorem parseAlternate_fields (prf : Prf) (password : String) (p1 p2 f1 f2 f3 : List Char)
    (hp1 : ':' ∉ p1) (hp2 : ':' ∉ p2) (h1 : '$' ∉ f1) (h2 : '$' ∉ f2) (h3 : '$' ∉ f3) :
    parseAlternate prf password (p1 ++ ':' :: (p2 ++ ':' :: (f1 ++ '$' :: (f2 ++ '$' :: f3)))) = (do
      let iters ← pyInt f1
      let salt ← urlsafeB64decode (f2 ++ "==".data)
      let want ← urlsafeB64decode (f3 ++ "==".data)
      let got ← pbkdf2CallStr prf password salt iters
      pure (_consteq got want)) := by
  rw [parseAlternate, pySplit_alternate p1 p2 _ hp1 hp2]
  simp only [pySplit_alternate_fields f1 f2 f3 h1 h2 h3, getItem]
  rfl

theorem stripped_urlsafe_chars (b : Bytes) (hb : ∀ x ∈ b, x < 256) :
    ∀ c ∈ rstripEq (urlsafeB64encode b), c ≠ '$' ∧ c ≠ ':' ∧ isPySpace c = false :=
  fun c hc => urlsafe_chars b hb c (rstripEq_subset _ _ hc)

theorem natRepr_nospace (n : Nat) : ∀ c ∈ natRepr n, isPySpace c = false :=
  fun c hc => (isDigitC_props c (natRepr_digits n c hc)).2.2.2.2.2.2.1

theorem natRepr_no_dollar (n : Nat) : '$' ∉ natRepr n := by
  intro hc
  exact absurd (natRepr_digits n '$' hc) (by decide)

theorem except_bind_ok {a : Type} {b : Type} (x : a) (f : a → Except Unit b) :
    (Bind.bind (Except.ok x) f) = f x := rfl

/-- Evaluating `verify_password` on a well-formed canonical credential
built from an iteration count, salt bytes and stored key bytes. -/
theorem verify_password_canonical (prf : Prf) (password : String) (n : Nat) (salt dk : Bytes)
    (hn : 1 ≤ n) (hsalt : ∀ x ∈ salt, x < 256) (hdk : ∀ x ∈ dk, x < 256) :
    verify_password prf password
      (String.mk ("pbkdf2_sha256$".data ++ natRepr n ++ "$".data ++
        rstripEq (urlsafeB64encode salt) ++ "$".data ++ rstripEq (urlsafeB64encode dk))) =
      _consteq (prf (utf8Encode password) salt n) dk := by
  have hnospace : ∀ c ∈ ("pbkdf2_sha256$".data ++ natRepr n ++ "$".data ++
      rstripEq (urlsafeB64encode salt) ++ "$".data ++ rstripEq (urlsafeB64encode dk)),
      isPySpace c = false := by
    intro c hc
    simp only [List.mem_append] at hc
    rcases hc with ((((hc | hc) | hc) | hc) | hc) | hc
    · revert hc; revert c; decide
    · exact natRepr_nospace n c hc
    · revert hc; revert c; decide
    · exact (stripped_urlsafe_chars salt hsalt c hc).2.2
    · revert hc; revert c; decide
    · exact (stripped_urlsafe_chars dk hdk c hc).2.2
  rw [verify_password, show (String.mk ("pbkdf2_sha256$".data ++ natRepr n ++ "$".data ++
      rstripEq (urlsafeB64encode salt) ++ "$".data ++ rstripEq (urlsafeB64encode dk))).data =
      "pbkdf2_sha256$".data ++ natRepr n ++ "$".data ++ rstripEq (urlsafeB64encode salt) ++
        "$".data ++ rstripEq (urlsafeB64encode dk) from rfl,
    pyStripL_eq_self _ hnospace]
  have hshape2 : "pbkdf2_sha256$".data ++ natRepr n ++ "$".data ++
      rstripEq (urlsafeB64encode salt) ++ "$".data ++ rstripEq (urlsafeB64encode dk) =
      "pbkdf2_sha256".data ++ '$' :: (natRepr n ++ '$' ::
        (rstripEq (urlsafeB64encode salt) ++ '$' :: rstripEq (urlsafeB64encode dk))) := by
    have h14 : ("pbkdf2_sha256$".data : List Char) = "pbkdf2_sha256".data ++ ['$'] := by rfl
    rw [h14]
    simp [List.append_assoc]
  have hpre : ("pbkdf2_sha256$".data : List Char).isPrefixOf
      ("pbkdf2_sha256$".data ++ natRepr n ++ "$".data ++ rstripEq (urlsafeB64encode salt) ++
        "$".data ++ rstripEq (urlsafeB64encode dk)) = true := by
    have : "pbkdf2_sha256$".data ++ natRepr n ++ "$".data ++
        rstripEq (urlsafeB64encode salt) ++ "$".data ++ rstripEq (urlsafeB64encode dk) =
        "pbkdf2_sha256$".data ++ (natRepr n ++ "$".data ++ rstripEq (urlsafeB64encode salt) ++
          "$".data ++ rstripEq (urlsafeB64encode dk)) := by
      simp [List.append_assoc]
    rw [this]
    exact isPrefixOf_append _ _
  rw [verifyBody, if_pos hpre, hshape2,
    parseCanonical_fields prf password _ _ _ _ (by decide) (natRepr_no_dollar n)
      (fun hc => absurd (stripped_urlsafe_chars salt hsalt '$' hc).1 (by simp))
      (fun hc => absurd (stripped_urlsafe_chars dk hdk '$' hc).1 (by simp))]
  simp only [pyInt_natRepr n, urlsafe_stripped_decode salt hsalt,
    urlsafe_stripped_decode dk hdk, except_bind_ok, pbkdf2CallStr_ok prf password salt n hn]
  rfl

theorem not_isPrefixOf_append (p q t : List Char) (hlen : p.length ≤ q.length)
    (hne : q.take p.length ≠ p) : p.isPrefixOf (q ++ t) = false := by
  cases h : p.isPrefixOf (q ++ t) with
  | false => rfl
  | true =>
    have hp : p <+: q ++ t := List.isPrefixOf_iff_prefix.mp h
    rw [List.prefix_iff_eq_take, List.take_append_eq_append_take,
      Nat.sub_eq_zero_of_le hlen, List.take_zero, List.append_nil] at hp
    exact absurd hp.symm hne

/-- Evaluating `verify_password` on a well-formed alternate-format
credential. -/
theorem verify_password_alternate (prf : Prf) (password : String) (n : Nat) (salt dk : Bytes)
    (hn : 1 ≤ n) (hsalt : ∀ x ∈ salt, x < 256) (hdk : ∀ x ∈ dk, x < 256) :
    verify_password prf password
      (String.mk ("pbkdf2:sha256:".data ++ natRepr n ++ "$".data ++
        rstripEq (urlsafeB64encode salt) ++ "$".data ++ rstripEq (urlsafeB64encode dk))) =
      _consteq (prf (utf8Encode password) salt n) dk := by
  have hnospace : ∀ c ∈ ("pbkdf2:sha256:".data ++ natRepr n ++ "$".data ++
      rstripEq (urlsafeB64encode salt) ++ "$".data ++ rstripEq (urlsafeB64encode dk)),
      isPySpace c = false := by
    intro c hc
    simp only [List.mem_append] at hc
    rcases hc with ((((hc | hc) | hc) | hc) | hc) | hc
    · revert hc; revert c; decide
    · exact natRepr_nospace n c hc
    · revert hc; revert c; decide
    · exact (stripped_urlsafe_chars salt hsalt c hc).2.2
    · revert hc; revert c; decide
    · exact (stripped_urlsafe_chars dk hdk c hc).2.2
  have hassoc : "pbkdf2:sha256:".data ++ natRepr n ++ "$".data ++
      rstripEq (urlsafeB64encode salt) ++ "$".data ++ rstripEq (urlsafeB64encode dk) =
      "pbkdf2:sha256:".data ++ (natRepr n ++ "$".data ++ rstripEq (urlsafeB64encode salt) ++
        "$".data ++ rstripEq (urlsafeB64encode dk)) := by
    simp [List.append_assoc]
  rw [verify_password, show (String.mk ("pbkdf2:sha256:".data ++ natRepr n ++ "$".data ++
      rstripEq (urlsafeB64encode salt) ++ "$".data ++ rstripEq (urlsafeB64encode dk))).data =
      "pbkdf2:sha256:".data ++ natRepr n ++ "$".data ++ rstripEq (urlsafeB64encode salt) ++
        "$".data ++ rstripEq (urlsafeB64encode dk) from rfl,
    pyStripL_eq_self _ hnospace]
  have hpre1 : ("pbkdf2_sha256$".data : List Char).isPrefixOf
      ("pbkdf2:sha256:".data ++ natRepr n ++ "$".data ++ rstripEq (urlsafeB64encode salt) ++
        "$".data ++ rstripEq (urlsafeB64encode dk)) = false := by
    rw [hassoc]
    exact not_isPrefixOf_append _ _ _ (by decide) (by decide)
  have hpre2 : ("pbkdf2:sha256:".data : List Char).isPrefixOf
      ("pbkdf2:sha256:".data ++ natRepr n ++ "$".data ++ rstripEq (urlsafeB64encode salt) ++
        "$".data ++ rstripEq (urlsafeB64encode dk)) = true := by
    rw [hassoc]
    exact isPrefixOf_append _ _
  rw [verifyBody, hpre1]
  simp only [Bool.false_eq_true, if_false]
  rw [hpre2]
  simp only [if_true]
  have hshape2 : "pbkdf2:sha256:".data ++ natRepr n ++ "$".data ++
      rstripEq (urlsafeB64encode salt) ++ "$".data ++ rstripEq (urlsafeB64encode dk) =
      "pbkdf2".data ++ ':' :: ("sha256".data ++ ':' :: (natRepr n ++ '$' ::
        (rstripEq (urlsafeB64encode salt) ++ '$' :: rstripEq (urlsafeB64encode dk)))) := by
    have h14 : ("pbkdf2:sha256:".data : List Char) =
        "pbkdf2".data ++ ':' :: ("sha256".data ++ [':']) := by rfl
    rw [h14]
    simp [List.append_assoc]
  rw [hshape2, parseAlternate_fields prf password _ _ _ _ _ (by decide) (by decide)
    (natRepr_no_dollar n)
    (fun hc => absurd (stripped_urlsafe_chars salt hsalt '$' hc).1 (by simp))
    (fun hc => absurd (stripped_urlsafe_chars dk hdk '$' hc).1 (by simp))]
  simp only [pyInt_natRepr n, urlsafe_stripped_decode salt hsalt,
    urlsafe_stripped_decode dk hdk, except_bind_ok, pbkdf2CallStr_ok prf password salt n hn]
  rfl

/-- Evaluating `verify_password` on a well-formed modular-crypt
credential. -/
theorem verify_password_modular (prf : Prf) (password : String) (n : Nat) (salt dk : Bytes)
    (hn : 1 ≤ n) (hsalt : ∀ x ∈ salt, x < 256) (hdk : ∀ x ∈ dk, x < 256) :
    verify_password prf password
      (String.mk ("$pbkdf2-sha256$".data ++ natRepr n ++ "$".data ++
        rstripEq (urlsafeB64encode salt) ++ "$".data ++ rstripEq (urlsafeB64encode dk))) =
      _consteq (prf (utf8Encode password) salt n) dk := by
  have hnospace : ∀ c ∈ ("$pbkdf2-sha256$".data ++ natRepr n ++ "$".data ++
      rstripEq (urlsafeB64encode salt) ++ "$".data ++ rstripEq (urlsafeB64encode dk)),
      isPySpace c = false := by
    intro c hc
    simp only [List.mem_append] at hc
    rcases hc with ((((hc | hc) | hc) | hc) | hc) | hc
    · revert hc; revert c; decide
    · exact natRepr_nospace n c hc
    · revert hc; revert c; decide
    · exact (stripped_urlsafe_chars salt hsalt c hc).2.2
    · revert hc; revert c; decide
    · exact (stripped_urlsafe_chars dk hdk c hc).2.2
  have hassoc : "$pbkdf2-sha256$".data ++ natRepr n ++ "$".data ++
      rstripEq (urlsafeB64encode salt) ++ "$".data ++ rstripEq (urlsafeB64encode dk) =
      "$pbkdf2-sha256$".data ++ (natRepr n ++ "$".data ++ rstripEq (urlsafeB64encode salt) ++
        "$".data ++ rstripEq (urlsafeB64encode dk)) := by
    simp [List.append_assoc]
  rw [verify_password, show (String.mk ("$pbkdf2-sha256$".data ++ natRepr n ++ "$".data ++
      rstripEq (urlsafeB64encode salt) ++ "$".data ++ rstripEq (urlsafeB64encode dk))).data =
      "$pbkdf2-sha256$".data ++ natRepr n ++ "$".data ++ rstripEq (urlsafeB64encode salt) ++
        "$".data ++ rstripEq (urlsafeB64encode dk) from rfl,
    pyStripL_eq_self _ hnospace]
  have hpre1 : ("pbkdf2_sha256$".data : List Char).isPrefixOf
      ("$pbkdf2-sha256$".data ++ natRepr n ++ "$".data ++ rstripEq (urlsafeB64encode salt) ++
        "$".data ++ rstripEq (urlsafeB64encode dk)) = false := by
    rw [hassoc]
    exact not_isPrefixOf_append _ _ _ (by decide) (by decide)
  have hpre2 : ("pbkdf2:sha256:".data : List Char).isPrefixOf
      ("$pbkdf2-sha256$".data ++ natRepr n ++ "$".data ++ rstripEq (urlsafeB64encode salt) ++
        "$".data ++ rstripEq (urlsafeB64encode dk)) = false := by
    rw [hassoc]
    exact not_isPrefixOf_append _ _ _ (by decide) (by decide)
  have hpre3 : ("$pbkdf2-sha256$".data : List Char).isPrefixOf
      ("$pbkdf2-sha256$".data ++ natRepr n ++ "$".data ++ rstripEq (urlsafeB64encode salt) ++
        "$".data ++ rstripEq (urlsafeB64encode dk)) = true := by
    rw [hassoc]
    exact isPrefixOf_append _ _
  rw [verifyBody, hpre1]
  simp only [Bool.false_eq_true, if_false]
  rw [hpre2]
  simp only [Bool.false_eq_true, if_false]
  rw [hpre3]
  simp only [if_true]
  have hshape2 : "$pbkdf2-sha256$".data ++ natRepr n ++ "$".data ++
      rstripEq (urlsafeB64encode salt) ++ "$".data ++ rstripEq (urlsafeB64encode dk) =
      '$' :: ("pbkdf2-sha256".data ++ '$' :: (natRepr n ++ '$' ::
        (rstripEq (urlsafeB64encode salt) ++ '$' :: rstripEq (urlsafeB64encode dk)))) := by
    have h15 : ("$pbkdf2-sha256$".data : List Char) =
        '$' :: ("pbkdf2-sha256".data ++ ['$']) := by rfl
    rw [h15]
    simp [List.append_assoc]
  rw [hshape2, parseModular_fields prf password _ _ _ _ (by decide) (natRepr_no_dollar n)
    (fun hc => absurd (stripped_urlsafe_chars salt hsalt '$' hc).1 (by simp))
    (fun hc => absurd (stripped_urlsafe_chars dk hdk '$' hc).1 (by simp))]
  simp only [pyInt_natRepr n, urlsafe_stripped_decode salt hsalt,
    urlsafe_stripped_decode dk hdk, except_bind_ok, pbkdf2CallStr_ok prf password salt n hn]
  rfl

theorem verifyBody_nomatch (prf : Prf) (password : String) (s : List Char)
    (h1 : ("pbkdf2_sha256$".data : List Char).isPrefixOf s = false)
    (h2 : ("pbkdf2:sha256:".data : List Char).isPrefixOf s = false)
    (h3 : ("$pbkdf2-sha256$".data : List Char).isPrefixOf s = false) :
    verifyBody prf password s = parseLegacy prf password s := by
  rw [verifyBody, h1]
  simp only [Bool.false_eq_true, if_false]
  rw [h2]
  simp only [Bool.false_eq_true, if_false]
  rw [h3]
  simp only [Bool.false_eq_true, if_false]

theorem parseLegacy_ok_long (prf : Prf) (password : String) (s : List Char) (raw : Bytes)
    (hdec : b64decode s = .ok raw) (hlen : 16 ≤ raw.length) :
    parseLegacy prf password s =
      .ok (_consteq (prf (utf8Encode password) (raw.take 16) _DEF_ITERS) (raw.drop 16)) := by
  rw [parseLegacy, hdec]
  simp only [except_bind_ok]
  rw [if_pos hlen, pbkdf2CallStr_ok prf password _ _ (by norm_num [_DEF_ITERS])]
  simp only [except_bind_ok]
  rfl

theorem parseLegacy_ok_short (prf : Prf) (password : String) (s : List Char) (raw : Bytes)
    (hdec : b64decode s = .ok raw) (hlen : raw.length < 16) :
    parseLegacy prf password s = .ok false := by
  rw [parseLegacy, hdec]
  simp only [except_bind_ok]
  rw [if_neg (by omega)]
  rfl

/-- The legacy fallback on a `base64(salt+digest)` pack built from a
16-byte salt and arbitrary derived-key bytes. -/
theorem verify_password_legacy_built (prf : Prf) (password : String) (iters : Nat)
    (rnd : Bytes) (hr : rnd.length = 16) (hbr : ∀ x ∈ rnd, x < 256)
    (hdk : ∀ x ∈ prf (utf8Encode password) rnd iters, x < 256) :
    verify_password prf password (hash_password_legacy_b64pack prf password iters rnd) =
      _consteq (prf (utf8Encode password) rnd _DEF_ITERS)
        (prf (utf8Encode password) rnd iters) := by
  have hball : ∀ x ∈ rnd ++ prf (utf8Encode password) rnd iters, x < 256 := by
    intro x hx
    rcases List.mem_append.mp hx with hx | hx
    · exact hbr x hx
    · exact hdk x hx
  have hchars := encGroups_chars _ hball
  rw [hash_password_legacy_b64pack, _pbkdf2_sha256, verify_password]
  rw [show (String.mk (b64encode (rnd ++ prf (utf8Encode password) rnd iters))).data =
      b64encode (rnd ++ prf (utf8Encode password) rnd iters) from rfl]
  rw [b64encode]
  rw [pyStripL_eq_self _ (fun c hc => (hchars c hc).2.2)]
  rw [verifyBody_nomatch prf password _
    (not_prefix_of_missing _ _ '$' (by decide) (fun hc => absurd (hchars '$' hc).1 (by simp)))
    (not_prefix_of_missing _ _ ':' (by decide) (fun hc => absurd (hchars ':' hc).2.1 (by simp)))
    (not_prefix_of_missing _ _ '$' (by decide) (fun hc => absurd (hchars '$' hc).1 (by simp)))]
  have hdecode : b64decode (b64EncodeGroups (rnd ++ prf (utf8Encode password) rnd iters)) =
      .ok (rnd ++ prf (utf8Encode password) rnd iters) := b64decode_encode _ hball
  rw [parseLegacy_ok_long prf password _ _ hdecode (by simp [hr])]
  rw [List.take_left' hr, List.drop_left' hr]

/-! ## The claims -/

/-- The canonical credential string `hash_password` produces, in closed
form (salt decode round-trips, so the derived key is computed on the raw
random bytes). -/
theorem hash_password_eq (prf : Prf) (p : String) (n : Nat) (r : Bytes)
    (hb : ∀ x ∈ r, x < 256) :
    hash_password prf p n r =
      String.mk ("pbkdf2_sha256$".data ++ natRepr n ++ "$".data ++
        rstripEq (urlsafeB64encode r) ++ "$".data ++
        rstripEq (urlsafeB64encode (prf (utf8Encode p) r n))) := by
  simp only [hash_password, _pbkdf2_sha256, urlsafe_stripped_decode r hb]

/-- C1: round-trip: for every password (the empty string and non-ASCII
strings included, since passwords enter only through UTF-8 encoding),
every iteration count `n ≥ 1` and every 16-byte salt draw, the canonical
credential produced by `hash_password` parses and verifies true against
the exact password that created it. -/
theorem C1_round_trip (p : String) (n : Nat) (r : Bytes) (hn : 1 ≤ n) (hr : r.length = 16)
    (hb : ∀ x ∈ r, x < 256) :
    verify_password pbkdf2HmacSha256 p (hash_password pbkdf2HmacSha256 p n r) = true := by
  rw [hash_password_eq pbkdf2HmacSha256 p n r hb,
    verify_password_canonical pbkdf2HmacSha256 p n r _ hn hb (pbkdf2HmacSha256_lt _ _ _)]
  exact consteq_self _

/-- C1 witness: a concrete instance (password "pw", one iteration, a
fixed 16-byte salt). -/
theorem C1_round_trip_witness :
    verify_password pbkdf2HmacSha256 "pw"
      (hash_password pbkdf2HmacSha256 "pw" 1 [0, 1, 2, 3, 4, 5, 6, 7, 8, 9, 10, 11, 12, 13, 14, 15]) = true :=
  C1_round_trip "pw" 1 [0, 1, 2, 3, 4, 5, 6, 7, 8, 9, 10, 11, 12, 13, 14, 15]
    (by norm_num) (by decide) (by decide)

/-- C5: the output of `hash_password` is exactly
`pbkdf2_sha256$<decimal iterations>$<urlsafe-b64 16-byte salt, padding
stripped>$<urlsafe-b64 32-byte PBKDF2-HMAC-SHA256 key, padding stripped>`,
and the default iteration count `_DEF_ITERS` is 260000. -/
theorem C5_hash_format (p : String) (n : Nat) (r : Bytes) (hn : 1 ≤ n) (hr : r.length = 16)
    (hb : ∀ x ∈ r, x < 256) :
    hash_password pbkdf2HmacSha256 p n r =
      String.mk ("pbkdf2_sha256$".data ++ natRepr n ++ "$".data ++
        rstripEq (urlsafeB64encode r) ++ "$".data ++
        rstripEq (urlsafeB64encode (pbkdf2HmacSha256 (utf8Encode p) r n))) ∧
    (pbkdf2HmacSha256 (utf8Encode p) r n).length = 32 ∧
    _DEF_ITERS = 260000 :=
  ⟨hash_password_eq pbkdf2HmacSha256 p n r hb, pbkdf2HmacSha256_length _ _ n hn, rfl⟩

/-- C5 witness: the format theorem instantiated at a concrete password,
iteration count and salt. -/
theorem C5_hash_format_witness :
    hash_password pbkdf2HmacSha256 "pw" 1 [0, 1, 2, 3, 4, 5, 6, 7, 8, 9, 10, 11, 12, 13, 14, 15] =
      String.mk ("pbkdf2_sha256$".data ++ natRepr 1 ++ "$".data ++
        rstripEq (urlsafeB64encode [0, 1, 2, 3, 4, 5, 6, 7, 8, 9, 10, 11, 12, 13, 14, 15]) ++
        "$".data ++
        rstripEq (urlsafeB64encode (pbkdf2HmacSha256 (utf8Encode "pw")
          [0, 1, 2, 3, 4, 5, 6, 7, 8, 9, 10, 11, 12, 13, 14, 15] 1))) ∧
    (pbkdf2HmacSha256 (utf8Encode "pw")
      [0, 1, 2, 3, 4, 5, 6, 7, 8, 9, 10, 11, 12, 13, 14, 15] 1).length = 32 ∧
    _DEF_ITERS = 260000 :=
  C5_hash_format "pw" 1 [0, 1, 2, 3, 4, 5, 6, 7, 8, 9, 10, 11, 12, 13, 14, 15]
    (by norm_num) (by decide) (by decide)

/-- C8: a stored value with any leading/trailing whitespace verifies
identically to the trimmed value. -/
theorem C8_whitespace (prf : Prf) (p s w1 w2 : String)
    (h1 : ∀ c ∈ w1.data, isPySpace c = true) (h2 : ∀ c ∈ w2.data, isPySpace c = true) :
    verify_password prf p (w1 ++ s ++ w2) = verify_password prf p s := by
  rw [verify_password, verify_password]
  have hdata : (w1 ++ s ++ w2).data = w1.data ++ s.data ++ w2.data := by
    simp [String.data_append]
  rw [hdata, pyStripL_pad w1.data w2.data s.data h1 h2]

/-- C8 witness: concrete whitespace around a concrete stored value. -/
theorem C8_whitespace_witness :
    (∀ c ∈ (" \n\t".data : List Char), isPySpace c = true) ∧
    verify_password pbkdf2HmacSha256 "x" (" \n\t" ++ "abc" ++ " \n\t") =
      verify_password pbkdf2HmacSha256 "x" "abc" :=
  ⟨by decide, C8_whitespace pbkdf2HmacSha256 "x" "abc" " \n\t" " \n\t" (by decide) (by decide)⟩

/-- C10: on the legacy fallback branch (no recognized prefix), a stored
value whose base64 decoding is at least 16 bytes can verify true only if
it is exactly 48 bytes: the recomputed key is always 32 bytes, and the
constant-time comparison of unequal-length buffers is false. -/
theorem C10_legacy_length (p s : String) (raw : Bytes)
    (h1 : ("pbkdf2_sha256$".data : List Char).isPrefixOf (pyStripL s.data) = false)
    (h2 : ("pbkdf2:sha256:".data : List Char).isPrefixOf (pyStripL s.data) = false)
    (h3 : ("$pbkdf2-sha256$".data : List Char).isPrefixOf (pyStripL s.data) = false)
    (hdec : b64decode (pyStripL s.data) = .ok raw)
    (hge : 16 ≤ raw.length) (hne : raw.length ≠ 48) :
    verify_password pbkdf2HmacSha256 p s = false := by
  rw [verify_password, verifyBody_nomatch _ _ _ h1 h2 h3,
    parseLegacy_ok_long _ _ _ _ hdec hge]
  show _consteq _ _ = false
  apply consteq_length_ne
  rw [pbkdf2HmacSha256_length _ _ _ (by norm_num [_DEF_ITERS]), List.length_drop]
  omega

/-- C10 witness: a 20-byte legacy pack (decodes, is ≥ 16 and ≠ 48 bytes,
hence fails). -/
theorem C10_legacy_length_witness :
    b64decode (pyStripL "QUJDREVGR0hJSktMTU5PUFFSU1Q=".data) =
      .ok [65, 66, 67, 68, 69, 70, 71, 72, 73, 74, 75, 76, 77, 78, 79, 80, 81, 82, 83, 84] ∧
    verify_password pbkdf2HmacSha256 "x" "QUJDREVGR0hJSktMTU5PUFFSU1Q=" = false :=
  ⟨by rfl, C10_legacy_length "x" "QUJDREVGR0hJSktMTU5PUFFSU1Q="
    [65, 66, 67, 68, 69, 70, 71, 72, 73, 74, 75, 76, 77, 78, 79, 80, 81, 82, 83, 84]
    (by decide) (by decide) (by decide) (by rfl) (by decide) (by decide)⟩

/-- C2: malformed stored values never raise: the `try/except` collapses
every parse or decode failure of the body to `false`, and the concrete
malformed inputs of the spec all yield `false`, for every key-derivation
function and every password. -/
theorem C2_malformed_false :
    (∀ (prf : Prf) (p : String), verify_password prf p "" = false) ∧
    (∀ (prf : Prf) (p : String), verify_password prf p "not-a-valid-format" = false) ∧
    (∀ (prf : Prf) (p : String), verify_password prf p "pbkdf2_sha256$abc$$" = false) ∧
    (∀ (prf : Prf) (p s : String), verifyBody prf p (pyStripL s.data) = .error () →
      verify_password prf p s = false) := by
  refine ⟨fun prf p => rfl, fun prf p => rfl, fun prf p => rfl, fun prf p s h => ?_⟩
  rw [verify_password, h]

/-- C2 witness: the error-collapse clause at a concrete erroring input. -/
theorem C2_malformed_false_witness :
    verifyBody pbkdf2HmacSha256 "x" (pyStripL "not-a-valid-format".data) = .error () ∧
    verify_password pbkdf2HmacSha256 "x" "not-a-valid-format" = false :=
  ⟨by rfl, C2_malformed_false.2.2.2 pbkdf2HmacSha256 "x" "not-a-valid-format" (by rfl)⟩

/-- C4: the source's chain of prefix tests computes exactly the spec's
ordered (predicate, parser) table dispatch: the first matching format of
canonical, alternate, modular-crypt decides the result and everything
else falls through to the legacy parser. -/
theorem C4_dispatch_order (prf : Prf) (p s : String) :
    verify_password prf p s = dispatchVerify prf p s := by
  rw [verify_password, dispatchVerify, verifyBody, specFormatTable]
  cases h1 : ("pbkdf2_sha256$".data : List Char).isPrefixOf (pyStripL s.data) with
  | true => simp [List.find?, h1]
  | false =>
    cases h2 : ("pbkdf2:sha256:".data : List Char).isPrefixOf (pyStripL s.data) with
    | true => simp [List.find?, h1, h2]
    | false =>
      cases h3 : ("$pbkdf2-sha256$".data : List Char).isPrefixOf (pyStripL s.data) with
      | true => simp [List.find?, h1, h2, h3]
      | false => simp [List.find?, h1, h2, h3]

/-- C7 counterexample: the claim "implausible salt length collapses to
false" is false on the code: no branch validates the salt length, so a
canonical credential with an EMPTY decoded salt and a key correctly
derived from that empty salt verifies true (one PBKDF2 iteration; the
whole evaluation is closed). -/
theorem C7_counterexample :
    verify_password pbkdf2HmacSha256 "x"
      "pbkdf2_sha256$1$$2qJXLD6i-hGqErzkNuBeAbHaygkv5YpLBJM-8WDX22Q" = true := by decide!

/-- C7 (amended): in each of the three prefix formats, a decodable stored
key whose length is not 32 bytes makes verification fail (the recomputed
key is always 32 bytes and the constant-time compare of unequal-length
buffers is false); the salt length, by contrast, is not validated. -/
theorem C7_key_length (p : String) (n : Nat) (salt want : Bytes) (hn : 1 ≤ n)
    (hsalt : ∀ x ∈ salt, x < 256) (hw : ∀ x ∈ want, x < 256) (hlen : want.length ≠ 32) :
    verify_password pbkdf2HmacSha256 p
      (String.mk ("pbkdf2_sha256$".data ++ natRepr n ++ "$".data ++
        rstripEq (urlsafeB64encode salt) ++ "$".data ++ rstripEq (urlsafeB64encode want))) =
        false ∧
    verify_password pbkdf2HmacSha256 p
      (String.mk ("pbkdf2:sha256:".data ++ natRepr n ++ "$".data ++
        rstripEq (urlsafeB64encode salt) ++ "$".data ++ rstripEq (urlsafeB64encode want))) =
        false ∧
    verify_password pbkdf2HmacSha256 p
      (String.mk ("$pbkdf2-sha256$".data ++ natRepr n ++ "$".data ++
        rstripEq (urlsafeB64encode salt) ++ "$".data ++ rstripEq (urlsafeB64encode want))) =
        false := by
  refine ⟨?_, ?_, ?_⟩
  · rw [verify_password_canonical pbkdf2HmacSha256 p n salt want hn hsalt hw]
    exact consteq_length_ne _ _ (by rw [pbkdf2HmacSha256_length _ _ n hn]; omega)
  · rw [verify_password_alternate pbkdf2HmacSha256 p n salt want hn hsalt hw]
    exact consteq_length_ne _ _ (by rw [pbkdf2HmacSha256_length _ _ n hn]; omega)
  · rw [verify_password_modular pbkdf2HmacSha256 p n salt want hn hsalt hw]
    exact consteq_length_ne _ _ (by rw [pbkdf2HmacSha256_length _ _ n hn]; omega)

/-- C7 witness: a 3-byte stored key in each prefix format fails. -/
theorem C7_key_length_witness :
    verify_password pbkdf2HmacSha256 "x"
      (String.mk ("pbkdf2_sha256$".data ++ natRepr 1 ++ "$".data ++
        rstripEq (urlsafeB64encode [7, 7, 7, 7]) ++ "$".data ++
        rstripEq (urlsafeB64encode [1, 2, 3]))) = false ∧
    verify_password pbkdf2HmacSha256 "x"
      (String.mk ("pbkdf2:sha256:".data ++ natRepr 1 ++ "$".data ++
        rstripEq (urlsafeB64encode [7, 7, 7, 7]) ++ "$".data ++
        rstripEq (urlsafeB64encode [1, 2, 3]))) = false ∧
    verify_password pbkdf2HmacSha256 "x"
      (String.mk ("$pbkdf2-sha256$".data ++ natRepr 1 ++ "$".data ++
        rstripEq (urlsafeB64encode [7, 7, 7, 7]) ++ "$".data ++
        rstripEq (urlsafeB64encode [1, 2, 3]))) = false :=
  C7_key_length "x" 1 [7, 7, 7, 7] [1, 2, 3] (by norm_num) (by decide) (by decide) (by decide)

/-- C3: legacy fallback semantics: with no recognized prefix the whole
trimmed string is standard-base64 decoded; at length ≥ 16 the first 16
bytes are the salt and the rest the expected key, recomputed at the
default count `_DEF_ITERS = 260000` and compared in constant time.  A
legacy pack made at the default count verifies true; one made at a count
whose derived key differs from the default-count key fails (for real
PBKDF2 a differing count gives a differing key except for astronomically
improbable collisions, which no finite computation can exclude; the
key-inequality is therefore a hypothesis of the last part). -/
theorem C3_legacy_fallback :
    _DEF_ITERS = 260000 ∧
    (∀ (p s : String) (raw : Bytes),
      ("pbkdf2_sha256$".data : List Char).isPrefixOf (pyStripL s.data) = false →
      ("pbkdf2:sha256:".data : List Char).isPrefixOf (pyStripL s.data) = false →
      ("$pbkdf2-sha256$".data : List Char).isPrefixOf (pyStripL s.data) = false →
      b64decode (pyStripL s.data) = .ok raw → 16 ≤ raw.length →
      verify_password pbkdf2HmacSha256 p s =
        _consteq (pbkdf2HmacSha256 (utf8Encode p) (raw.take 16) _DEF_ITERS)
          (raw.drop 16)) ∧
    (∀ (p : String) (r : Bytes), r.length = 16 → (∀ x ∈ r, x < 256) →
      verify_password pbkdf2HmacSha256 p
        (hash_password_legacy_b64pack pbkdf2HmacSha256 p _DEF_ITERS r) = true) ∧
    (∀ (prf : Prf) (p : String) (n : Nat) (r : Bytes), r.length = 16 →
      (∀ x ∈ r, x < 256) → (∀ x ∈ prf (utf8Encode p) r n, x < 256) →
      prf (utf8Encode p) r n ≠ prf (utf8Encode p) r _DEF_ITERS →
      verify_password prf p (hash_password_legacy_b64pack prf p n r) = false) := by
  refine ⟨rfl, ?_, ?_, ?_⟩
  · intro p s raw h1 h2 h3 hdec hlen
    rw [verify_password, verifyBody_nomatch _ _ _ h1 h2 h3,
      parseLegacy_ok_long _ _ _ _ hdec hlen]
  · intro p r hr hb
    rw [verify_password_legacy_built pbkdf2HmacSha256 p _DEF_ITERS r hr hb
      (pbkdf2HmacSha256_lt _ _ _)]
    exact consteq_self _
  · intro prf p n r hr hb hdk hne
    rw [verify_password_legacy_built prf p n r hr hb hdk]
    exact consteq_ne _ _ (Ne.symm hne)

/-- A key-derivation function that depends on the iteration count, used
to exhibit the legacy-fallback mismatch concretely. -/
def prfIter : Prf := fun _pw _salt c => List.replicate 32 (c % 256)

/-- C3 witness: each clause at a concrete instance; the mismatch clause
with an iteration-count-sensitive derivation function at counts 2 vs
260000. -/
theorem C3_legacy_fallback_witness :
    _DEF_ITERS = 260000 ∧
    verify_password pbkdf2HmacSha256 "x" "QUJDREVGR0hJSktMTU5PUFFSU1Q=" =
      _consteq (pbkdf2HmacSha256 (utf8Encode "x")
        [65, 66, 67, 68, 69, 70, 71, 72, 73, 74, 75, 76, 77, 78, 79, 80] _DEF_ITERS)
        [81, 82, 83, 84] ∧
    verify_password pbkdf2HmacSha256 "a"
      (hash_password_legacy_b64pack pbkdf2HmacSha256 "a" _DEF_ITERS
        [9, 9, 9, 9, 9, 9, 9, 9, 9, 9, 9, 9, 9, 9, 9, 9]) = true ∧
    prfIter (utf8Encode "a") [9, 9, 9, 9, 9, 9, 9, 9, 9, 9, 9, 9, 9, 9, 9, 9] 2 ≠
      prfIter (utf8Encode "a") [9, 9, 9, 9, 9, 9, 9, 9, 9, 9, 9, 9, 9, 9, 9, 9] _DEF_ITERS ∧
    verify_password prfIter "a"
      (hash_password_legacy_b64pack prfIter "a" 2
        [9, 9, 9, 9, 9, 9, 9, 9, 9, 9, 9, 9, 9, 9, 9, 9]) = false := by
  refine ⟨C3_legacy_fallback.1, ?_, ?_, by decide, ?_⟩
  · have h := C3_legacy_fallback.2.1 "x" "QUJDREVGR0hJSktMTU5PUFFSU1Q="
      [65, 66, 67, 68, 69, 70, 71, 72, 73, 74, 75, 76, 77, 78, 79, 80, 81, 82, 83, 84]
      (by decide) (by decide) (by decide) (by rfl) (by decide)
    simpa using h
  · exact C3_legacy_fallback.2.2.1 "a" [9, 9, 9, 9, 9, 9, 9, 9, 9, 9, 9, 9, 9, 9, 9, 9]
      (by decide) (by decide)
  · exact C3_legacy_fallback.2.2.2 prfIter "a" 2 [9, 9, 9, 9, 9, 9, 9, 9, 9, 9, 9, 9, 9, 9, 9, 9]
      (by decide) (by decide) (by decide) (by decide)

theorem except_bind_eq_ok {a b : Type} (e : Except Unit a) (f : a → Except Unit b) (v : b) :
    Bind.bind e f = .ok v ↔ ∃ x, e = .ok x ∧ f x = .ok v := by
  cases e with
  | error u =>
    constructor
    · intro h
      rw [show (Bind.bind (Except.error u) f : Except Unit b) = Except.error u from rfl] at h
      cases h
    · rintro ⟨x, hx, _⟩
      cases hx
  | ok x =>
    constructor
    · intro h
      exact ⟨x, rfl, h⟩
    · rintro ⟨y, hy, hf⟩
      cases hy
      exact hf

theorem pbkdf2CallStr_ok_shape (prf : Prf) (p : String) (salt : Bytes) (it : Int)
    (got : Bytes) (h : pbkdf2CallStr prf p salt it = .ok got) :
    got = prf (utf8Encode p) salt it.toNat := by
  rw [pbkdf2CallStr] at h
  split at h
  · cases h
    rfl
  · cases h

theorem parseCanonical_ok_shape (prf : Prf) (p : String) (s : List Char) (b : Bool)
    (h : parseCanonical prf p s = .ok b) :
    ∃ c salt want, b = _consteq (prf (utf8Encode p) salt c) want := by
  rw [parseCanonical] at h
  split at h
  · obtain ⟨it, _, h⟩ := (except_bind_eq_ok _ _ _).mp h
    obtain ⟨salt, _, h⟩ := (except_bind_eq_ok _ _ _).mp h
    obtain ⟨want, _, h⟩ := (except_bind_eq_ok _ _ _).mp h
    obtain ⟨got, hgot, h⟩ := (except_bind_eq_ok _ _ _).mp h
    have hb : b = _consteq got want := by
      cases h
      rfl
    exact ⟨it.toNat, salt, want, by
      rw [hb, pbkdf2CallStr_ok_shape prf p salt it got hgot]⟩
  · cases h

theorem parseModular_ok_shape (prf : Prf) (p : String) (s : List Char) (b : Bool)
    (h : parseModular prf p s = .ok b) :
    ∃ c salt want, b = _consteq (prf (utf8Encode p) salt c) want := by
  rw [parseModular] at h
  split at h
  · obtain ⟨it, _, h⟩ := (except_bind_eq_ok _ _ _).mp h
    obtain ⟨salt, _, h⟩ := (except_bind_eq_ok _ _ _).mp h
    obtain ⟨want, _, h⟩ := (except_bind_eq_ok _ _ _).mp h
    obtain ⟨got, hgot, h⟩ := (except_bind_eq_ok _ _ _).mp h
    have hb : b = _consteq got want := by
      cases h
      rfl
    exact ⟨it.toNat, salt, want, by
      rw [hb, pbkdf2CallStr_ok_shape prf p salt it got hgot]⟩
  · cases h

theorem parseAlternate_ok_shape (prf : Prf) (p : String) (s : List Char) (b : Bool)
    (h : parseAlternate prf p s = .ok b) :
    ∃ c salt want, b = _consteq (prf (utf8Encode p) salt c) want := by
  rw [parseAlternate] at h
  split at h
  · obtain ⟨itS, _, h⟩ := (except_bind_eq_ok _ _ _).mp h
    obtain ⟨it, _, h⟩ := (except_bind_eq_ok _ _ _).mp h
    obtain ⟨saltS, _, h⟩ := (except_bind_eq_ok _ _ _).mp h
    obtain ⟨digS, _, h⟩ := (except_bind_eq_ok _ _ _).mp h
    obtain ⟨salt, _, h⟩ := (except_bind_eq_ok _ _ _).mp h
    obtain ⟨want, _, h⟩ := (except_bind_eq_ok _ _ _).mp h
    obtain ⟨got, hgot, h⟩ := (except_bind_eq_ok _ _ _).mp h
    have hb : b = _consteq got want := by
      cases h
      rfl
    exact ⟨it.toNat, salt, want, by
      rw [hb, pbkdf2CallStr_ok_shape prf p salt it got hgot]⟩
  · cases h

theorem parseLegacy_ok_shape (prf : Prf) (p : String) (s : List Char) (b : Bool)
    (h : parseLegacy prf p s = .ok b) :
    b = false ∨ ∃ c salt want, b = _consteq (prf (utf8Encode p) salt c) want := by
  rw [parseLegacy] at h
  obtain ⟨raw, _, h⟩ := (except_bind_eq_ok _ _ _).mp h
  split at h
  · obtain ⟨got, hgot, h⟩ := (except_bind_eq_ok _ _ _).mp h
    have hb : b = _consteq got (raw.drop 16) := by
      cases h
      rfl
    exact Or.inr ⟨(_DEF_ITERS : Int).toNat, raw.take 16, raw.drop 16, by
      rw [hb, pbkdf2CallStr_ok_shape prf p (raw.take 16) _ got hgot]⟩
  · cases h
    exact Or.inl rfl

/-- C9: the comparison primitive `_consteq` (the model of
hmac.compare_digest) decides byte-string equality, its traversal length
depends only on the buffer lengths (never on where the buffers first
differ, i.e. no short-circuit), and every branch of the verifier that
produces a comparison result produces it as `_consteq` of the recomputed
key against the decoded stored key. -/
theorem C9_constant_time_compare :
    (∀ a b : Bytes, _consteq a b = true ↔ a = b) ∧
    (∀ a b a2 b2 : Bytes, a.length = a2.length → b.length = b2.length →
      consteqSteps a b = consteqSteps a2 b2) ∧
    (∀ (prf : Prf) (p : String) (s : List Char) (b : Bool),
      verifyBody prf p s = .ok b →
      b = false ∨ ∃ c salt want, b = _consteq (prf (utf8Encode p) salt c) want) := by
  refine ⟨consteq_iff_eq, ?_, ?_⟩
  · intro a b a2 b2 h1 h2
    rw [consteqSteps_eq_min, consteqSteps_eq_min, h1, h2]
  · intro prf p s b h
    rw [verifyBody] at h
    split at h
    · exact Or.inr (parseCanonical_ok_shape prf p s b h)
    · split at h
      · exact Or.inr (parseAlternate_ok_shape prf p s b h)
      · split at h
        · exact Or.inr (parseModular_ok_shape prf p s b h)
        · exact parseLegacy_ok_shape prf p s b h

/-- C9 witness: the step-count clause at concrete unequal buffers, and
the branch clause at a concrete input (the empty stored string reaches
the legacy branch and produces `false`). -/
theorem C9_constant_time_compare_witness :
    ([1, 2].length = ([9, 9] : Bytes).length ∧ [3].length = ([0] : Bytes).length ∧
      consteqSteps [1, 2] [3] = consteqSteps [9, 9] [0]) ∧
    verifyBody pbkdf2HmacSha256 "x" [] = .ok false ∧
    (false = false ∨ ∃ c salt want,
      false = _consteq (pbkdf2HmacSha256 (utf8Encode "x") salt c) want) := by
  refine ⟨⟨by decide, by decide, ?_⟩, by rfl, ?_⟩
  · exact C9_constant_time_compare.2.1 [1, 2] [3] [9, 9] [0] (by decide) (by decide)
  · exact C9_constant_time_compare.2.2 pbkdf2HmacSha256 "x" [] false (by rfl)

/-! ## C6: cross-format parsing at fixed concrete parameters -/

def c6salt : Bytes := utf8Encode "0123456789abcdef"

/-- The derived key `K = PBKDF2-HMAC-SHA256("hunter2", b"0123456789abcdef",
1000, dklen=32)`. -/
def c6K : Bytes := pbkdf2HmacSha256 (utf8Encode "hunter2") c6salt 1000

/-- First-block HMAC pad states and `U_1` for password "hunter2",
salt `c6salt` (as 32-bit words), and the final xor-accumulator after 999
further loop steps, computed below in 37-iteration chunks. -/
def c6istA : List Nat := [1356805021, 3006386161, 3244565834, 2516110538, 2778082908, 489920891, 3999856366, 1080660024]

def c6ostA : List Nat := [2910382500, 3542929611, 1898110247, 3822867435, 491866415, 4002358714, 2643617077, 2608188375]

def c6u1A : List Nat := [1984228067, 1234613514, 650232991, 2737892486, 543835372, 2758221307, 324215512, 3556516850]

def c6KWA : List Nat := [2789086175, 2432089995, 1486368108, 1285386982, 3607887923, 2645980166, 3202475721, 2161149800]

theorem c6istA_eq :
    compress sha256H0 ((utf8Encode "hunter2" ++
      List.replicate (64 - (utf8Encode "hunter2").length) 0).map (fun x => x ^^^ 0x36)) =
      c6istA := by decide!

theorem c6ostA_eq :
    compress sha256H0 ((utf8Encode "hunter2" ++
      List.replicate (64 - (utf8Encode "hunter2").length) 0).map (fun x => x ^^^ 0x5c)) =
      c6ostA := by decide!

theorem c6u1A_eq :
    hmacMid c6istA c6ostA (c6salt ++ [0, 0, 0, 1]) = wordsToBytes c6u1A := by decide!

set_option maxRecDepth 1000000 in
theorem c6chunkA0 : pbkdf2PairW c6istA c6ostA c6u1A c6u1A 37 =
    ([568476862, 2419649915, 3266547258, 3874519054, 3179809642, 2245323953, 973457348, 1036181347],
     [4274820906, 2180946996, 209799616, 1787922827, 2837032504, 361745060, 444946864, 2744238280]) := by decide!

set_option maxRecDepth 1000000 in
theorem c6chunkA1 : pbkdf2PairW c6istA c6ostA [568476862, 2419649915, 3266547258, 3874519054, 3179809642, 2245323953, 973457348, 1036181347]
    [4274820906, 2180946996, 209799616, 1787922827, 2837032504, 361745060, 444946864, 2744238280] 37 =
    ([287849018, 2116996844, 3046835102, 1210797910, 3345410479, 1972666018, 3917903936, 854707268],
     [3908479834, 1805566002, 729336460, 1820489353, 4186262267, 3557440212, 2366652164, 3209740293]) := by decide!

set_option maxRecDepth 1000000 in
theorem c6chunkA2 : pbkdf2PairW c6istA c6ostA [287849018, 2116996844, 3046835102, 1210797910, 3345410479, 1972666018, 3917903936, 854707268]
    [3908479834, 1805566002, 729336460, 1820489353, 4186262267, 3557440212, 2366652164, 3209740293] 37 =
    ([4275978568, 1293744096, 1804111235, 133536256, 1561540999, 2050418650, 2955434916, 235533642],
     [70474020, 3184291708, 1412489758, 1570375827, 2947569306, 2656314259, 1913312852, 1221893810]) := by decide!

set_option maxRecDepth 1000000 in
theorem c6chunkA3 : pbkdf2PairW c6istA c6ostA [4275978568, 1293744096, 1804111235, 133536256, 1561540999, 2050418650, 2955434916, 235533642]
    [70474020, 3184291708, 1412489758, 1570375827, 2947569306, 2656314259, 1913312852, 1221893810] 37 =
    ([3003952773, 567158477, 1729230996, 3217852974, 3667324187, 4036120210, 4000203410, 1646228311],
     [744283080, 3208970746, 3294503862, 3233208612, 2386297382, 4095136723, 1557607378, 985580160]) := by decide!

set_option maxRecDepth 1000000 in
theorem c6chunkA4 : pbkdf2PairW c6istA c6ostA [3003952773, 567158477, 1729230996, 3217852974, 3667324187, 4036120210, 4000203410, 1646228311]
    [744283080, 3208970746, 3294503862, 3233208612, 2386297382, 4095136723, 1557607378, 985580160] 37 =
    ([3545463603, 980508445, 1607906730, 818802028, 2135881352, 309406531, 1960100466, 2839148805],
     [3585402238, 3842637013, 287513318, 3706193194, 979401890, 4249645073, 1876664319, 555179252]) := by decide!

set_option maxRecDepth 1000000 in
theorem c6chunkA5 : pbkdf2PairW c6istA c6ostA [3545463603, 980508445, 1607906730, 818802028, 2135881352, 309406531, 1960100466, 2839148805]
    [3585402238, 3842637013, 287513318, 3706193194, 979401890, 4249645073, 1876664319, 555179252] 37 =
    ([3324457600, 1955975089, 406186413, 3423199003, 1763356224, 1179491013, 749853683, 2919412429],
     [1806163055, 1797186002, 2295967424, 397530106, 1589214665, 1666634974, 752770754, 60627182]) := by decide!

set_option maxRecDepth 1000000 in
theorem c6chunkA6 : pbkdf2PairW c6istA c6ostA [3324457600, 1955975089, 406186413, 3423199003, 1763356224, 1179491013, 749853683, 2919412429]
    [1806163055, 1797186002, 2295967424, 397530106, 1589214665, 1666634974, 752770754, 60627182] 37 =
    ([1663715146, 3207369095, 4129112158, 1588819171, 2907247495, 1921973805, 723418783, 894350119],
     [677060134, 4156439301, 615919147, 3422618330, 2528167145, 3408625184, 2392324315, 2324274440]) := by decide!

set_option maxRecDepth 1000000 in
theorem c6chunkA7 : pbkdf2PairW c6istA c6ostA [1663715146, 3207369095, 4129112158, 1588819171, 2907247495, 1921973805, 723418783, 894350119]
    [677060134, 4156439301, 615919147, 3422618330, 2528167145, 3408625184, 2392324315, 2324274440] 37 =
    ([2238639490, 1155095006, 655450790, 2433856405, 3910546930, 932358045, 3908346306, 2275363723],
     [4003855122, 3403344511, 2372464497, 1511109147, 3927116403, 417810189, 988854508, 2650958296]) := by decide!

set_option maxRecDepth 1000000 in
theorem c6chunkA8 : pbkdf2PairW c6istA c6ostA [2238639490, 1155095006, 655450790, 2433856405, 3910546930, 932358045, 3908346306, 2275363723]
    [4003855122, 3403344511, 2372464497, 1511109147, 3927116403, 417810189, 988854508, 2650958296] 37 =
    ([2813923857, 2882936484, 3386050091, 2550506991, 1846866696, 1436274984, 1551541160, 2129300345],
     [3240236978, 1368325453, 1747553205, 1001472591, 1526842554, 1918022711, 2869891499, 4249016632]) := by decide!

set_option maxRecDepth 1000000 in
theorem c6chunkA9 : pbkdf2PairW c6istA c6ostA [2813923857, 2882936484, 3386050091, 2550506991, 1846866696, 1436274984, 1551541160, 2129300345]
    [3240236978, 1368325453, 1747553205, 1001472591, 1526842554, 1918022711, 2869891499, 4249016632] 37 =
    ([72970766, 170414226, 3266335639, 1886772803, 2345672704, 277815167, 515997987, 960088830],
     [3943594464, 3780607186, 721205498, 1867047987, 2058385096, 3978852703, 580124083, 3732938188]) := by decide!

set_option maxRecDepth 1000000 in
theorem c6chunkA10 : pbkdf2PairW c6istA c6ostA [72970766, 170414226, 3266335639, 1886772803, 2345672704, 277815167, 515997987, 960088830]
    [3943594464, 3780607186, 721205498, 1867047987, 2058385096, 3978852703, 580124083, 3732938188] 37 =
    ([3670570890, 3599762442, 3529682425, 956218965, 4231017859, 3944183360, 2749964631, 594484683],
     [1933905813, 1587066593, 2913239437, 1229998830, 1831294215, 2380327284, 3518504143, 2493309372]) := by decide!

set_option maxRecDepth 1000000 in
theorem c6chunkA11 : pbkdf2PairW c6istA c6ostA [3670570890, 3599762442, 3529682425, 956218965, 4231017859, 3944183360, 2749964631, 594484683]
    [1933905813, 1587066593, 2913239437, 1229998830, 1831294215, 2380327284, 3518504143, 2493309372] 37 =
    ([244340011, 110147268, 3728772439, 2098769827, 404822797, 601041383, 2973549937, 2642487463],
     [1539900955, 3325286060, 1815169564, 1024547109, 2849363529, 2748745445, 481504371, 1441772845]) := by decide!

set_option maxRecDepth 1000000 in
theorem c6chunkA12 : pbkdf2PairW c6istA c6ostA [244340011, 110147268, 3728772439, 2098769827, 404822797, 601041383, 2973549937, 2642487463]
    [1539900955, 3325286060, 1815169564, 1024547109, 2849363529, 2748745445, 481504371, 1441772845] 37 =
    ([1867463032, 1047101709, 4262604507, 4078657811, 3765557941, 1848358375, 197511097, 764112066],
     [2554845173, 2160931530, 3914369430, 1021675530, 1147712887, 1369117322, 3117158622, 846213687]) := by decide!

set_option maxRecDepth 1000000 in
theorem c6chunkA13 : pbkdf2PairW c6istA c6ostA [1867463032, 1047101709, 4262604507, 4078657811, 3765557941, 1848358375, 197511097, 764112066]
    [2554845173, 2160931530, 3914369430, 1021675530, 1147712887, 1369117322, 3117158622, 846213687] 37 =
    ([3706758050, 3705851840, 1467008537, 1855467946, 3743624282, 736415679, 2587089269, 2517668624],
     [2386439192, 346303754, 418842424, 41549671, 2802361390, 3060713974, 925582674, 3392780993]) := by decide!

set_option maxRecDepth 1000000 in
theorem c6chunkA14 : pbkdf2PairW c6istA c6ostA [3706758050, 3705851840, 1467008537, 1855467946, 3743624282, 736415679, 2587089269, 2517668624]
    [2386439192, 346303754, 418842424, 41549671, 2802361390, 3060713974, 925582674, 3392780993] 37 =
    ([2569461932, 1979603359, 2375420143, 852777480, 4124976165, 3494559323, 4146773876, 3053849886],
     [3088759653, 2970910587, 615844620, 1763250423, 2178655664, 4086362872, 2121643560, 1467621690]) := by decide!

set_option maxRecDepth 1000000 in
theorem c6chunkA15 : pbkdf2PairW c6istA c6ostA [2569461932, 1979603359, 2375420143, 852777480, 4124976165, 3494559323, 4146773876, 3053849886]
    [3088759653, 2970910587, 615844620, 1763250423, 2178655664, 4086362872, 2121643560, 1467621690] 37 =
    ([3397948830, 390632490, 2291622640, 1855324998, 508946224, 590486024, 2874431149, 1663505641],
     [1861116637, 1418439984, 3123113154, 2036044528, 145351254, 2241336511, 1850169600, 1495648989]) := by decide!

set_option maxRecDepth 1000000 in
theorem c6chunkA16 : pbkdf2PairW c6istA c6ostA [3397948830, 390632490, 2291622640, 1855324998, 508946224, 590486024, 2874431149, 1663505641]
    [1861116637, 1418439984, 3123113154, 2036044528, 145351254, 2241336511, 1850169600, 1495648989] 37 =
    ([2499377882, 1444142792, 4286797409, 3430903478, 262191364, 8791158, 1136342973, 69458586],
     [2967693449, 453803233, 3071403176, 3708075938, 3942652713, 3049378767, 1134547966, 3412422756]) := by decide!

set_option maxRecDepth 1000000 in
theorem c6chunkA17 : pbkdf2PairW c6istA c6ostA [2499377882, 1444142792, 4286797409, 3430903478, 262191364, 8791158, 1136342973, 69458586]
    [2967693449, 453803233, 3071403176, 3708075938, 3942652713, 3049378767, 1134547966, 3412422756] 37 =
    ([2968898298, 3275761414, 2238030859, 3257467344, 3076909034, 1060671864, 1390108041, 2662098192],
     [2845304868, 3568848474, 2902637115, 2606428723, 3681858341, 3401744363, 2735936190, 3042997506]) := by decide!

set_option maxRecDepth 1000000 in
theorem c6chunkA18 : pbkdf2PairW c6istA c6ostA [2968898298, 3275761414, 2238030859, 3257467344, 3076909034, 1060671864, 1390108041, 2662098192]
    [2845304868, 3568848474, 2902637115, 2606428723, 3681858341, 3401744363, 2735936190, 3042997506] 37 =
    ([2679305412, 1684740515, 3345907258, 479632970, 2339627601, 156025394, 99506161, 1201536729],
     [1021257098, 1089337570, 111231505, 4002673683, 3378187677, 3310158269, 914316243, 2518559650]) := by decide!

set_option maxRecDepth 1000000 in
theorem c6chunkA19 : pbkdf2PairW c6istA c6ostA [2679305412, 1684740515, 3345907258, 479632970, 2339627601, 156025394, 99506161, 1201536729]
    [1021257098, 1089337570, 111231505, 4002673683, 3378187677, 3310158269, 914316243, 2518559650] 37 =
    ([1550196271, 1264337604, 2121426463, 1742395386, 2684216540, 2985737099, 2390707339, 3904724601],
     [708480459, 4234840861, 2752133641, 4289770170, 4018306412, 2310572617, 2265359231, 1981817123]) := by decide!

set_option maxRecDepth 1000000 in
theorem c6chunkA20 : pbkdf2PairW c6istA c6ostA [1550196271, 1264337604, 2121426463, 1742395386, 2684216540, 2985737099, 2390707339, 3904724601]
    [708480459, 4234840861, 2752133641, 4289770170, 4018306412, 2310572617, 2265359231, 1981817123] 37 =
    ([2758164881, 613792427, 1033867627, 3401796356, 905698004, 1174399384, 1508788739, 2391815761],
     [903597891, 308551398, 786314763, 1252814083, 3643615830, 1971411379, 4222076865, 3720348321]) := by decide!

set_option maxRecDepth 1000000 in
theorem c6chunkA21 : pbkdf2PairW c6istA c6ostA [2758164881, 613792427, 1033867627, 3401796356, 905698004, 1174399384, 1508788739, 2391815761]
    [903597891, 308551398, 786314763, 1252814083, 3643615830, 1971411379, 4222076865, 3720348321] 37 =
    ([4030133189, 2799752581, 3352089917, 64326275, 1667228546, 3329832145, 3616039046, 185690067],
     [1522498780, 475857507, 3071538609, 1470201958, 2454466930, 1216552479, 1452251114, 442186672]) := by decide!

set_option maxRecDepth 1000000 in
theorem c6chunkA22 : pbkdf2PairW c6istA c6ostA [4030133189, 2799752581, 3352089917, 64326275, 1667228546, 3329832145, 3616039046, 185690067]
    [1522498780, 475857507, 3071538609, 1470201958, 2454466930, 1216552479, 1452251114, 442186672] 37 =
    ([2123806244, 145489358, 1384825273, 2418762236, 492839515, 3343126885, 3865538840, 4254373403],
     [3832024477, 3212705719, 2174818133, 3798542796, 3963278315, 2762430119, 3052994713, 3767855431]) := by decide!

set_option maxRecDepth 1000000 in
theorem c6chunkA23 : pbkdf2PairW c6istA c6ostA [2123806244, 145489358, 1384825273, 2418762236, 492839515, 3343126885, 3865538840, 4254373403]
    [3832024477, 3212705719, 2174818133, 3798542796, 3963278315, 2762430119, 3052994713, 3767855431] 37 =
    ([4204612424, 4132325218, 449328858, 2045949089, 3940645104, 2416467761, 809404869, 635109452],
     [3063526781, 657669593, 295855317, 2130728369, 360295371, 3713609661, 3120813516, 289393418]) := by decide!

set_option maxRecDepth 1000000 in
theorem c6chunkA24 : pbkdf2PairW c6istA c6ostA [4204612424, 4132325218, 449328858, 2045949089, 3940645104, 2416467761, 809404869, 635109452]
    [3063526781, 657669593, 295855317, 2130728369, 360295371, 3713609661, 3120813516, 289393418] 37 =
    ([331283769, 4060155234, 774189627, 2266503013, 2473685535, 3753854263, 803575820, 3996969196],
     [2435150387, 3769646352, 1603440011, 3965751409, 3317061729, 378846437, 1862639832, 1716242437]) := by decide!

set_option maxRecDepth 1000000 in
theorem c6chunkA25 : pbkdf2PairW c6istA c6ostA [331283769, 4060155234, 774189627, 2266503013, 2473685535, 3753854263, 803575820, 3996969196]
    [2435150387, 3769646352, 1603440011, 3965751409, 3317061729, 378846437, 1862639832, 1716242437] 37 =
    ([3654586152, 1427104856, 1245072697, 2856331924, 3003632420, 3536851411, 1461677355, 2594744670],
     [3379374390, 1119540830, 1265480070, 1759810621, 3457388064, 2356270250, 2081707721, 1306821089]) := by decide!

set_option maxRecDepth 1000000 in
theorem c6chunkA26 : pbkdf2PairW c6istA c6ostA [3654586152, 1427104856, 1245072697, 2856331924, 3003632420, 3536851411, 1461677355, 2594744670]
    [3379374390, 1119540830, 1265480070, 1759810621, 3457388064, 2356270250, 2081707721, 1306821089] 37 =
    ([4099611337, 818066698, 1468655565, 2886673869, 1558771052, 3460813535, 4060868520, 3387211993],
     c6KWA) := by decide!

theorem c6finalA :
    pbkdf2PairW c6istA c6ostA c6u1A c6u1A 999 =
    ([4099611337, 818066698, 1468655565, 2886673869, 1558771052, 3460813535, 4060868520, 3387211993],
     c6KWA) := by
  rw [show (999 : Nat) = 37 + 962 from rfl, pairW_add2 _ _ _ _ _ _ _ _ c6chunkA0]
  rw [show (962 : Nat) = 37 + 925 from rfl, pairW_add2 _ _ _ _ _ _ _ _ c6chunkA1]
  rw [show (925 : Nat) = 37 + 888 from rfl, pairW_add2 _ _ _ _ _ _ _ _ c6chunkA2]
  rw [show (888 : Nat) = 37 + 851 from rfl, pairW_add2 _ _ _ _ _ _ _ _ c6chunkA3]
  rw [show (851 : Nat) = 37 + 814 from rfl, pairW_add2 _ _ _ _ _ _ _ _ c6chunkA4]
  rw [show (814 : Nat) = 37 + 777 from rfl, pairW_add2 _ _ _ _ _ _ _ _ c6chunkA5]
  rw [show (777 : Nat) = 37 + 740 from rfl, pairW_add2 _ _ _ _ _ _ _ _ c6chunkA6]
  rw [show (740 : Nat) = 37 + 703 from rfl, pairW_add2 _ _ _ _ _ _ _ _ c6chunkA7]
  rw [show (703 : Nat) = 37 + 666 from rfl, pairW_add2 _ _ _ _ _ _ _ _ c6chunkA8]
  rw [show (666 : Nat) = 37 + 629 from rfl, pairW_add2 _ _ _ _ _ _ _ _ c6chunkA9]
  rw [show (629 : Nat) = 37 + 592 from rfl, pairW_add2 _ _ _ _ _ _ _ _ c6chunkA10]
  rw [show (592 : Nat) = 37 + 555 from rfl, pairW_add2 _ _ _ _ _ _ _ _ c6chunkA11]
  rw [show (555 : Nat) = 37 + 518 from rfl, pairW_add2 _ _ _ _ _ _ _ _ c6chunkA12]
  rw [show (518 : Nat) = 37 + 481 from rfl, pairW_add2 _ _ _ _ _ _ _ _ c6chunkA13]
  rw [show (481 : Nat) = 37 + 444 from rfl, pairW_add2 _ _ _ _ _ _ _ _ c6chunkA14]
  rw [show (444 : Nat) = 37 + 407 from rfl, pairW_add2 _ _ _ _ _ _ _ _ c6chunkA15]
  rw [show (407 : Nat) = 37 + 370 from rfl, pairW_add2 _ _ _ _ _ _ _ _ c6chunkA16]
  rw [show (370 : Nat) = 37 + 333 from rfl, pairW_add2 _ _ _ _ _ _ _ _ c6chunkA17]
  rw [show (333 : Nat) = 37 + 296 from rfl, pairW_add2 _ _ _ _ _ _ _ _ c6chunkA18]
  rw [show (296 : Nat) = 37 + 259 from rfl, pairW_add2 _ _ _ _ _ _ _ _ c6chunkA19]
  rw [show (259 : Nat) = 37 + 222 from rfl, pairW_add2 _ _ _ _ _ _ _ _ c6chunkA20]
  rw [show (222 : Nat) = 37 + 185 from rfl, pairW_add2 _ _ _ _ _ _ _ _ c6chunkA21]
  rw [show (185 : Nat) = 37 + 148 from rfl, pairW_add2 _ _ _ _ _ _ _ _ c6chunkA22]
  rw [show (148 : Nat) = 37 + 111 from rfl, pairW_add2 _ _ _ _ _ _ _ _ c6chunkA23]
  rw [show (111 : Nat) = 37 + 74 from rfl, pairW_add2 _ _ _ _ _ _ _ _ c6chunkA24]
  rw [show (74 : Nat) = 37 + 37 from rfl, pairW_add2 _ _ _ _ _ _ _ _ c6chunkA25]
  exact c6chunkA26

theorem c6keyA :
    pbkdf2Fast (utf8Encode "hunter2") c6salt 1000 = wordsToBytes c6KWA := by
  rw [show (1000 : Nat) = 999 + 1 from rfl,
    pbkdf2Fast_succ (utf8Encode "hunter2") c6salt 999 (by decide),
    c6istA_eq, c6ostA_eq, c6u1A_eq,
    pbkdf2FastLoop_words c6istA c6ostA (by decide) (by decide) 999 c6u1A c6u1A
      (by decide) (by decide) (by decide) (by decide),
    c6finalA]

/-- First-block HMAC pad states and `U_1` for password "hunter3",
salt `c6salt` (as 32-bit words), and the final xor-accumulator after 999
further loop steps, computed below in 37-iteration chunks. -/
def c6istB : List Nat := [1023180765, 115731875, 4185291474, 1157699865, 3079439376, 570596296, 3558440031, 287726183]

def c6ostB : List Nat := [2127741781, 2693057899, 613998849, 4122459416, 98963101, 2955819039, 165714072, 1202644621]

def c6u1B : List Nat := [3147575025, 81031559, 2096429350, 1900705948, 3230146660, 634923555, 2121158451, 636896073]

def c6KWB : List Nat := [1207352678, 3024901223, 1283158534, 1923689200, 1737804342, 1128180306, 1159847349, 2313060899]

theorem c6istB_eq :
    compress sha256H0 ((utf8Encode "hunter3" ++
      List.replicate (64 - (utf8Encode "hunter3").length) 0).map (fun x => x ^^^ 0x36)) =
      c6istB := by decide!

theorem c6ostB_eq :
    compress sha256H0 ((utf8Encode "hunter3" ++
      List.replicate (64 - (utf8Encode "hunter3").length) 0).map (fun x => x ^^^ 0x5c)) =
      c6ostB := by decide!

theorem c6u1B_eq :
    hmacMid c6istB c6ostB (c6salt ++ [0, 0, 0, 1]) = wordsToBytes c6u1B := by decide!

set_option maxRecDepth 1000000 in
theorem c6chunkB0 : pbkdf2PairW c6istB c6ostB c6u1B c6u1B 37 =
    ([3552527216, 1428116289, 3920068947, 4176075040, 4008232446, 3451179767, 1657511509, 3358322663],
     [385457613, 382725715, 2118836114, 3882012613, 4173293650, 3100346519, 1960749048, 2318757928]) := by decide!

set_option maxRecDepth 1000000 in
theorem c6chunkB1 : pbkdf2PairW c6istB c6ostB [3552527216, 1428116289, 3920068947, 4176075040, 4008232446, 3451179767, 1657511509, 3358322663]
    [385457613, 382725715, 2118836114, 3882012613, 4173293650, 3100346519, 1960749048, 2318757928] 37 =
    ([300904320, 3923338984, 518913213, 925366053, 1412647883, 3131604698, 2605835089, 91357385],
     [3504983013, 2379917672, 93474614, 3831715811, 2736389374, 3830046342, 3027965486, 154915038]) := by decide!

set_option maxRecDepth 1000000 in
theorem c6chunkB2 : pbkdf2PairW c6istB c6ostB [300904320, 3923338984, 518913213, 925366053, 1412647883, 3131604698, 2605835089, 91357385]
    [3504983013, 2379917672, 93474614, 3831715811, 2736389374, 3830046342, 3027965486, 154915038] 37 =
    ([436636915, 3767986748, 541184991, 3268573262, 2464537654, 1490195657, 2350843833, 462454118],
     [699338239, 2379823646, 3990515990, 3229993916, 1761813600, 1752273471, 3241322260, 241561696]) := by decide!

set_option maxRecDepth 1000000 in
theorem c6chunkB3 : pbkdf2PairW c6istB c6ostB [436636915, 3767986748, 541184991, 3268573262, 2464537654, 1490195657, 2350843833, 462454118]
    [699338239, 2379823646, 3990515990, 3229993916, 1761813600, 1752273471, 3241322260, 241561696] 37 =
    ([1972449103, 2824845122, 4059586770, 1112110479, 727403078, 1936116590, 3672573233, 2115699393],
     [1717313595, 1658693873, 3211684475, 3095874169, 4057917828, 3515950592, 2676803894, 1783933878]) := by decide!

set_option maxRecDepth 1000000 in
theorem c6chunkB4 : pbkdf2PairW c6istB c6ostB [1972449103, 2824845122, 4059586770, 1112110479, 727403078, 1936116590, 3672573233, 2115699393]
    [1717313595, 1658693873, 3211684475, 3095874169, 4057917828, 3515950592, 2676803894, 1783933878] 37 =
    ([1424258038, 3022046594, 1401006183, 68776216, 67495001, 2703107092, 3777476952, 3670707222],
     [475319616, 1779238190, 2782687419, 730385476, 1918060143, 1346389104, 1530030571, 1188885905]) := by decide!

set_option maxRecDepth 1000000 in
theorem c6chunkB5 : pbkdf2PairW c6istB c6ostB [1424258038, 3022046594, 1401006183, 68776216, 67495001, 2703107092, 3777476952, 3670707222]
    [475319616, 1779238190, 2782687419, 730385476, 1918060143, 1346389104, 1530030571, 1188885905] 37 =
    ([2402095033, 3775499435, 3893408269, 3657726184, 4009589232, 1724829316, 238258933, 423436627],
     [3913399157, 455084750, 1230553915, 645295935, 837346873, 2894211987, 2410972846, 1670885332]) := by decide!

set_option maxRecDepth 1000000 in
theorem c6chunkB6 : pbkdf2PairW c6istB c6ostB [2402095033, 3775499435, 3893408269, 3657726184, 4009589232, 1724829316, 238258933, 423436627]
    [3913399157, 455084750, 1230553915, 645295935, 837346873, 2894211987, 2410972846, 1670885332] 37 =
    ([3310699627, 3290991438, 1944306725, 2485526674, 2210755830, 1027364050, 864075990, 1445515040],
     [1353893575, 3911585175, 868602269, 2485617238, 1218959930, 3493047214, 559246098, 3050126793]) := by decide!

set_option maxRecDepth 1000000 in
theorem c6chunkB7 : pbkdf2PairW c6istB c6ostB [3310699627, 3290991438, 1944306725, 2485526674, 2210755830, 1027364050, 864075990, 1445515040]
    [1353893575, 3911585175, 868602269, 2485617238, 1218959930, 3493047214, 559246098, 3050126793] 37 =
    ([2703555574, 2268245067, 609182832, 2680951484, 1203367418, 1211750170, 3071000863, 2039265991],
     [3857839749, 3293887374, 1711128836, 4119081864, 2713899061, 2838386048, 1204322286, 1231941630]) := by decide!

set_option maxRecDepth 1000000 in
theorem c6chunkB8 : pbkdf2PairW c6istB c6ostB [2703555574, 2268245067, 609182832, 2680951484, 1203367418, 1211750170, 3071000863, 2039265991]
    [3857839749, 3293887374, 1711128836, 4119081864, 2713899061, 2838386048, 1204322286, 1231941630] 37 =
    ([2868519316, 81511501, 452120893, 4190715573, 1552055175, 197860771, 1063939782, 4119311499],
     [449648808, 3646663428, 792059965, 47521706, 2590138840, 3168587116, 2224676313, 3457440970]) := by decide!

set_option maxRecDepth 1000000 in
theorem c6chunkB9 : pbkdf2PairW c6istB c6ostB [2868519316, 81511501, 452120893, 4190715573, 1552055175, 197860771, 1063939782, 4119311499]
    [449648808, 3646663428, 792059965, 47521706, 2590138840, 3168587116, 2224676313, 3457440970] 37 =
    ([1006667893, 3734565731, 3903379297, 904945824, 775570410, 1157477820, 3583182264, 4155334523],
     [1951119460, 3334321214, 1115239378, 1354755603, 912121529, 2038639165, 1752509916, 3507684499]) := by decide!

set_option maxRecDepth 1000000 in
theorem c6chunkB10 : pbkdf2PairW c6istB c6ostB [1006667893, 3734565731, 3903379297, 904945824, 775570410, 1157477820, 3583182264, 4155334523]
    [1951119460, 3334321214, 1115239378, 1354755603, 912121529, 2038639165, 1752509916, 3507684499] 37 =
    ([3899766127, 3598404559, 1648003164, 823266285, 3157609601, 835632537, 929417127, 3129992981],
     [4070615855, 3137472211, 1233353181, 193631512, 3137043225, 2700771573, 1396453395, 1805647525]) := by decide!

set_option maxRecDepth 1000000 in
theorem c6chunkB11 : pbkdf2PairW c6istB c6ostB [3899766127, 3598404559, 1648003164, 823266285, 3157609601, 835632537, 929417127, 3129992981]
    [4070615855, 3137472211, 1233353181, 193631512, 3137043225, 2700771573, 1396453395, 1805647525] 37 =
    ([1175794523, 1804302757, 1182281809, 918115394, 1943832118, 3862890567, 1765505257, 1192326673],
     [2088654889, 1687585418, 1195867980, 2677177253, 2389854392, 2034628542, 1931038088, 3807037551]) := by decide!

set_option maxRecDepth 1000000 in
theorem c6chunkB12 : pbkdf2PairW c6istB c6ostB [1175794523, 1804302757, 1182281809, 918115394, 1943832118, 3862890567, 1765505257, 1192326673]
    [2088654889, 1687585418, 1195867980, 2677177253, 2389854392, 2034628542, 1931038088, 3807037551] 37 =
    ([1332059978, 3172076654, 790761186, 428628264, 752477288, 1290209874, 2860533171, 1858967133],
     [297272544, 3642073095, 3986675698, 1096745244, 2981060257, 2128862810, 384379068, 2728683848]) := by decide!

set_option maxRecDepth 1000000 in
theorem c6chunkB13 : pbkdf2PairW c6istB c6ostB [1332059978, 3172076654, 790761186, 428628264, 752477288, 1290209874, 2860533171, 1858967133]
    [297272544, 3642073095, 3986675698, 1096745244, 2981060257, 2128862810, 384379068, 2728683848] 37 =
    ([762741388, 849642406, 1870819580, 661825547, 1232574134, 867302417, 1686719857, 1128271140],
     [1009721484, 723286382, 2348813119, 4084285480, 1567790913, 3657161822, 3746904889, 161274972]) := by decide!

set_option maxRecDepth 1000000 in
theorem c6chunkB14 : pbkdf2PairW c6istB c6ostB [762741388, 849642406, 1870819580, 661825547, 1232574134, 867302417, 1686719857, 1128271140]
    [1009721484, 723286382, 2348813119, 4084285480, 1567790913, 3657161822, 3746904889, 161274972] 37 =
    ([549320223, 1036543177, 2451753635, 2432152513, 1683445569, 1974068416, 1307107148, 602155744],
     [2174150142, 2006131645, 3641419172, 3019234426, 161632446, 2848086039, 517720332, 1007314035]) := by decide!

set_option maxRecDepth 1000000 in
theorem c6chunkB15 : pbkdf2PairW c6istB c6ostB [549320223, 1036543177, 2451753635, 2432152513, 1683445569, 1974068416, 1307107148, 602155744]
    [2174150142, 2006131645, 3641419172, 3019234426, 161632446, 2848086039, 517720332, 1007314035] 37 =
    ([1575325131, 3393776065, 2859122617, 2540975958, 2324764814, 2918515180, 2380828160, 3216431881],
     [3598594915, 96414420, 1754751510, 813698277, 1338707477, 2526983016, 1542633921, 2180053294]) := by decide!

set_option maxRecDepth 1000000 in
theorem c6chunkB16 : pbkdf2PairW c6istB c6ostB [1575325131, 3393776065, 2859122617, 2540975958, 2324764814, 2918515180, 2380828160, 3216431881]
    [3598594915, 96414420, 1754751510, 813698277, 1338707477, 2526983016, 1542633921, 2180053294] 37 =
    ([825825278, 4270953208, 619866359, 2829663799, 862418321, 233213888, 2943832140, 4122430730],
     [3637343208, 1702194550, 826091200, 2123419962, 2226997713, 1216490920, 2633331591, 3355758904]) := by decide!

set_option maxRecDepth 1000000 in
theorem c6chunkB17 : pbkdf2PairW c6istB c6ostB [825825278, 4270953208, 619866359, 2829663799, 862418321, 233213888, 2943832140, 4122430730]
    [3637343208, 1702194550, 826091200, 2123419962, 2226997713, 1216490920, 2633331591, 3355758904] 37 =
    ([3588249384, 1137453362, 339157418, 488661774, 2070186828, 2724043877, 1562367629, 1707288306],
     [435329276, 2674715271, 3392386589, 2552979444, 1061672264, 4280871273, 163524517, 644005336]) := by decide!

set_option maxRecDepth 1000000 in
theorem c6chunkB18 : pbkdf2PairW c6istB c6ostB [3588249384, 1137453362, 339157418, 488661774, 2070186828, 2724043877, 1562367629, 1707288306]
    [435329276, 2674715271, 3392386589, 2552979444, 1061672264, 4280871273, 163524517, 644005336] 37 =
    ([4056646069, 2642936274, 207170275, 2720056804, 1040031776, 2236690397, 52265295, 466420907],
     [2414126996, 2612868455, 2158596385, 3134309296, 4089024008, 2944324713, 1003133139, 2546836182]) := by decide!

set_option maxRecDepth 1000000 in
theorem c6chunkB19 : pbkdf2PairW c6istB c6ostB [4056646069, 2642936274, 207170275, 2720056804, 1040031776, 2236690397, 52265295, 466420907]
    [2414126996, 2612868455, 2158596385, 3134309296, 4089024008, 2944324713, 1003133139, 2546836182] 37 =
    ([1794962512, 468147795, 1191148422, 2267526224, 4273688153, 228958435, 4072667626, 333890722],
     [829832514, 2296578874, 1633791863, 2244851503, 2896366368, 1809207642, 2598908641, 2180091321]) := by decide!

set_option maxRecDepth 1000000 in
theorem c6chunkB20 : pbkdf2PairW c6istB c6ostB [1794962512, 468147795, 1191148422, 2267526224, 4273688153, 228958435, 4072667626, 333890722]
    [829832514, 2296578874, 1633791863, 2244851503, 2896366368, 1809207642, 2598908641, 2180091321] 37 =
    ([3574054800, 4123200350, 44991270, 1145743721, 1785359695, 490203096, 2320075214, 3605517659],
     [3853803167, 4103601699, 1255042050, 2472566281, 2080403494, 2905734974, 245632354, 3905452543]) := by decide!

set_option maxRecDepth 1000000 in
theorem c6chunkB21 : pbkdf2PairW c6istB c6ostB [3574054800, 4123200350, 44991270, 1145743721, 1785359695, 490203096, 2320075214, 3605517659]
    [3853803167, 4103601699, 1255042050, 2472566281, 2080403494, 2905734974, 245632354, 3905452543] 37 =
    ([1959069702, 922041453, 426134521, 2724949908, 870691505, 3808734799, 3968880133, 3636079629],
     [3111304579, 3294272331, 4277736676, 3753734754, 2111057497, 2823127144, 278770137, 1474427604]) := by decide!

set_option maxRecDepth 1000000 in
theorem c6chunkB22 : pbkdf2PairW c6istB c6ostB [1959069702, 922041453, 426134521, 2724949908, 870691505, 3808734799, 3968880133, 3636079629]
    [3111304579, 3294272331, 4277736676, 3753734754, 2111057497, 2823127144, 278770137, 1474427604] 37 =
    ([4257844790, 3613505814, 1555547721, 3674555252, 2298886340, 131559389, 3837532014, 897736352],
     [1792051928, 2220969205, 1404226515, 2770814005, 824823593, 1159581699, 3217553754, 611442128]) := by decide!

set_option maxRecDepth 1000000 in
theorem c6chunkB23 : pbkdf2PairW c6istB c6ostB [4257844790, 3613505814, 1555547721, 3674555252, 2298886340, 131559389, 3837532014, 897736352]
    [1792051928, 2220969205, 1404226515, 2770814005, 824823593, 1159581699, 3217553754, 611442128] 37 =
    ([3939952120, 1765555974, 4119252605, 388601718, 2760088742, 673731867, 2951022711, 1616544904],
     [1086181372, 2389655271, 735611624, 2726705032, 2764936342, 2558028383, 208443880, 4129068126]) := by decide!

set_option maxRecDepth 1000000 in
theorem c6chunkB24 : pbkdf2PairW c6istB c6ostB [3939952120, 1765555974, 4119252605, 388601718, 2760088742, 673731867, 2951022711, 1616544904]
    [1086181372, 2389655271, 735611624, 2726705032, 2764936342, 2558028383, 208443880, 4129068126] 37 =
    ([3719536541, 2355242918, 151347217, 844107674, 3718443632, 934693411, 1934874281, 1394013635],
     [2551261854, 2295900454, 2885953927, 250384000, 953230842, 3907728533, 2850644743, 2779450112]) := by decide!

set_option maxRecDepth 1000000 in
theorem c6chunkB25 : pbkdf2PairW c6istB c6ostB [3719536541, 2355242918, 151347217, 844107674, 3718443632, 934693411, 1934874281, 1394013635]
    [2551261854, 2295900454, 2885953927, 250384000, 953230842, 3907728533, 2850644743, 2779450112] 37 =
    ([3267531400, 2203367025, 808669221, 3326571824, 1908039444, 776133143, 752597269, 3622092549],
     [1708327710, 3124215497, 2875427886, 3461991153, 3206553995, 315999797, 1135298863, 2585506022]) := by decide!

set_option maxRecDepth 1000000 in
theorem c6chunkB26 : pbkdf2PairW c6istB c6ostB [3267531400, 2203367025, 808669221, 3326571824, 1908039444, 776133143, 752597269, 3622092549]
    [1708327710, 3124215497, 2875427886, 3461991153, 3206553995, 315999797, 1135298863, 2585506022] 37 =
    ([648973517, 3527555565, 2441223261, 4032721655, 2068646509, 320682499, 3865870513, 2352467319],
     c6KWB) := by decide!

theorem c6finalB :
    pbkdf2PairW c6istB c6ostB c6u1B c6u1B 999 =
    ([648973517, 3527555565, 2441223261, 4032721655, 2068646509, 320682499, 3865870513, 2352467319],
     c6KWB) := by
  rw [show (999 : Nat) = 37 + 962 from rfl, pairW_add2 _ _ _ _ _ _ _ _ c6chunkB0]
  rw [show (962 : Nat) = 37 + 925 from rfl, pairW_add2 _ _ _ _ _ _ _ _ c6chunkB1]
  rw [show (925 : Nat) = 37 + 888 from rfl, pairW_add2 _ _ _ _ _ _ _ _ c6chunkB2]
  rw [show (888 : Nat) = 37 + 851 from rfl, pairW_add2 _ _ _ _ _ _ _ _ c6chunkB3]
  rw [show (851 : Nat) = 37 + 814 from rfl, pairW_add2 _ _ _ _ _ _ _ _ c6chunkB4]
  rw [show (814 : Nat) = 37 + 777 from rfl, pairW_add2 _ _ _ _ _ _ _ _ c6chunkB5]
  rw [show (777 : Nat) = 37 + 740 from rfl, pairW_add2 _ _ _ _ _ _ _ _ c6chunkB6]
  rw [show (740 : Nat) = 37 + 703 from rfl, pairW_add2 _ _ _ _ _ _ _ _ c6chunkB7]
  rw [show (703 : Nat) = 37 + 666 from rfl, pairW_add2 _ _ _ _ _ _ _ _ c6chunkB8]
  rw [show (666 : Nat) = 37 + 629 from rfl, pairW_add2 _ _ _ _ _ _ _ _ c6chunkB9]
  rw [show (629 : Nat) = 37 + 592 from rfl, pairW_add2 _ _ _ _ _ _ _ _ c6chunkB10]
  rw [show (592 : Nat) = 37 + 555 from rfl, pairW_add2 _ _ _ _ _ _ _ _ c6chunkB11]
  rw [show (555 : Nat) = 37 + 518 from rfl, pairW_add2 _ _ _ _ _ _ _ _ c6chunkB12]
  rw [show (518 : Nat) = 37 + 481 from rfl, pairW_add2 _ _ _ _ _ _ _ _ c6chunkB13]
  rw [show (481 : Nat) = 37 + 444 from rfl, pairW_add2 _ _ _ _ _ _ _ _ c6chunkB14]
  rw [show (444 : Nat) = 37 + 407 from rfl, pairW_add2 _ _ _ _ _ _ _ _ c6chunkB15]
  rw [show (407 : Nat) = 37 + 370 from rfl, pairW_add2 _ _ _ _ _ _ _ _ c6chunkB16]
  rw [show (370 : Nat) = 37 + 333 from rfl, pairW_add2 _ _ _ _ _ _ _ _ c6chunkB17]
  rw [show (333 : Nat) = 37 + 296 from rfl, pairW_add2 _ _ _ _ _ _ _ _ c6chunkB18]
  rw [show (296 : Nat) = 37 + 259 from rfl, pairW_add2 _ _ _ _ _ _ _ _ c6chunkB19]
  rw [show (259 : Nat) = 37 + 222 from rfl, pairW_add2 _ _ _ _ _ _ _ _ c6chunkB20]
  rw [show (222 : Nat) = 37 + 185 from rfl, pairW_add2 _ _ _ _ _ _ _ _ c6chunkB21]
  rw [show (185 : Nat) = 37 + 148 from rfl, pairW_add2 _ _ _ _ _ _ _ _ c6chunkB22]
  rw [show (148 : Nat) = 37 + 111 from rfl, pairW_add2 _ _ _ _ _ _ _ _ c6chunkB23]
  rw [show (111 : Nat) = 37 + 74 from rfl, pairW_add2 _ _ _ _ _ _ _ _ c6chunkB24]
  rw [show (74 : Nat) = 37 + 37 from rfl, pairW_add2 _ _ _ _ _ _ _ _ c6chunkB25]
  exact c6chunkB26

theorem c6keyB :
    pbkdf2Fast (utf8Encode "hunter3") c6salt 1000 = wordsToBytes c6KWB := by
  rw [show (1000 : Nat) = 999 + 1 from rfl,
    pbkdf2Fast_succ (utf8Encode "hunter3") c6salt 999 (by decide),
    c6istB_eq, c6ostB_eq, c6u1B_eq,
    pbkdf2FastLoop_words c6istB c6ostB (by decide) (by decide) 999 c6u1B c6u1B
      (by decide) (by decide) (by decide) (by decide),
    c6finalB]

theorem c6_keys_ne : pbkdf2HmacSha256 (utf8Encode "hunter3") c6salt 1000 ≠ c6K := by
  have h1 := pbkdf2Fast_eq (utf8Encode "hunter3") c6salt 1000 (by decide)
  have h2 := pbkdf2Fast_eq (utf8Encode "hunter2") c6salt 1000 (by decide)
  rw [show c6K = pbkdf2HmacSha256 (utf8Encode "hunter2") c6salt 1000 from rfl, ← h1, ← h2,
    c6keyA, c6keyB]
  decide

/-- C6: with password "hunter2", salt `b"0123456789abcdef"`, 1000
iterations and derived key `c6K`, the credential built in each of the
three prefix formats from `(salt, K, 1000)` verifies true against
"hunter2" and false against "hunter3". -/
theorem C6_cross_format :
    (verify_password pbkdf2HmacSha256 "hunter2"
      (String.mk ("pbkdf2_sha256$".data ++ natRepr 1000 ++ "$".data ++
        rstripEq (urlsafeB64encode c6salt) ++ "$".data ++ rstripEq (urlsafeB64encode c6K))) =
        true ∧
     verify_password pbkdf2HmacSha256 "hunter2"
      (String.mk ("pbkdf2:sha256:".data ++ natRepr 1000 ++ "$".data ++
        rstripEq (urlsafeB64encode c6salt) ++ "$".data ++ rstripEq (urlsafeB64encode c6K))) =
        true ∧
     verify_password pbkdf2HmacSha256 "hunter2"
      (String.mk ("$pbkdf2-sha256$".data ++ natRepr 1000 ++ "$".data ++
        rstripEq (urlsafeB64encode c6salt) ++ "$".data ++ rstripEq (urlsafeB64encode c6K))) =
        true) ∧
    (verify_password pbkdf2HmacSha256 "hunter3"
      (String.mk ("pbkdf2_sha256$".data ++ natRepr 1000 ++ "$".data ++
        rstripEq (urlsafeB64encode c6salt) ++ "$".data ++ rstripEq (urlsafeB64encode c6K))) =
        false ∧
     verify_password pbkdf2HmacSha256 "hunter3"
      (String.mk ("pbkdf2:sha256:".data ++ natRepr 1000 ++ "$".data ++
        rstripEq (urlsafeB64encode c6salt) ++ "$".data ++ rstripEq (urlsafeB64encode c6K))) =
        false ∧
     verify_password pbkdf2HmacSha256 "hunter3"
      (String.mk ("$pbkdf2-sha256$".data ++ natRepr 1000 ++ "$".data ++
        rstripEq (urlsafeB64encode c6salt) ++ "$".data ++ rstripEq (urlsafeB64encode c6K))) =
        false) := by
  have hsalt : ∀ x ∈ c6salt, x < 256 := by decide
  have hK : ∀ x ∈ c6K, x < 256 := pbkdf2HmacSha256_lt _ _ _
  have hself : pbkdf2HmacSha256 (utf8Encode "hunter2") c6salt 1000 = c6K := rfl
  refine ⟨⟨?_, ?_, ?_⟩, ⟨?_, ?_, ?_⟩⟩
  · rw [verify_password_canonical pbkdf2HmacSha256 "hunter2" 1000 c6salt c6K (by norm_num)
      hsalt hK, hself]
    exact consteq_self _
  · rw [verify_password_alternate pbkdf2HmacSha256 "hunter2" 1000 c6salt c6K (by norm_num)
      hsalt hK, hself]
    exact consteq_self _
  · rw [verify_password_modular pbkdf2HmacSha256 "hunter2" 1000 c6salt c6K (by norm_num)
      hsalt hK, hself]
    exact consteq_self _
  · rw [verify_password_canonical pbkdf2HmacSha256 "hunter3" 1000 c6salt c6K (by norm_num)
      hsalt hK]
    exact consteq_ne _ _ c6_keys_ne
  · rw [verify_password_alternate pbkdf2HmacSha256 "hunter3" 1000 c6salt c6K (by norm_num)
      hsalt hK]
    exact consteq_ne _ _ c6_keys_ne
  · rw [verify_password_modular pbkdf2HmacSha256 "hunter3" 1000 c6salt c6K (by norm_num)
      hsalt hK]
    exact consteq_ne _ _ c6_keys_ne
